import Mathlib

/-!
# FLTK: drawing into an SVG file, and the Android Studio project scaffolder

A shallow embedding of `examples/SVG_File_Surface.cxx`: the graphics driver
`SVG_Graphics_Driver` that serialises FLTK drawing calls as SVG markup, and the
surface `SVG_File_Surface` that owns the document header and footer; and of
`test/flink.cxx`: the functions `createFile` and `createProjectFolder` that write the
fixed set of project files under a destination root.

Conventions of the embedding
* A `FILE*` opened for writing is the text written to it so far (`FILE`).
* A C string is the sequence of its bytes before the terminating NUL, one `Char`
  per byte.
* C `int` values are mathematical integers; where the source does arithmetic that
  can leave the 32-bit range (unary minus) the result is wrapped explicitly.
  `uchar` values are naturals reduced modulo 256, `double`/`float` values are
  rationals and the cast `(int)` truncates toward zero.
* Every member function takes the object as an explicit argument and returns the
  updated object.  Overloads of one C++ name get distinct Lean names:
  `draw(const char*, int, int, int)` is `draw`, `draw(const char*, int, float, float)`
  is `draw_float`, `draw(int, const char*, int, int, int)` is `draw_angle`,
  `color(uchar, uchar, uchar)` is `color` and `color(Fl_Color)` is `color_index`.
  Constructors are `ctor`, destructors are `dtor`.
* In the scaffolder the process state (current directory, directories, files) is passed
  explicitly as `Flink_World`; a stream opened with `fl_fopen` is named by its path.
  The overload `createFile(dir, name, data, size)` is `createFile_data`.  A character
  buffer of `FL_PATH_MAX` bytes holds a string of fewer than `FL_PATH_MAX` bytes and its
  NUL; `strcpy` and `strcat` past the end of a buffer have no result, and the functions
  that use them return an `Option`.
-/

set_option maxRecDepth 8192

/-! ## C runtime: integers and formatted output -/

/-- Two-complement wrap of an integer into the range of a 32-bit `int`. -/
def wrap32 (v : Int) : Int := (v + 2 ^ 31) % 2 ^ 32 - 2 ^ 31

/-- Unary minus on a C `int`. -/
def neg32 (v : Int) : Int := wrap32 (-v)

/-- The cast `(int)` applied to a floating value: truncation toward zero.  When the
truncated value is not an `int` the cast is undefined in C; the least `int` stands for
the result there. -/
def trunc_int (q : ℚ) : Int :=
  let t := Int.tdiv q.num (q.den : Int)
  if -2 ^ 31 ≤ t ∧ t < 2 ^ 31 then t else -2 ^ 31

/-- Conversion of a value to `uchar`. -/
def to_uchar (v : Nat) : Nat := v % 256

/-- The text written so far to a stream opened for writing. -/
abbrev FILE := String

/-- One argument of the variadic part of a `printf` call. -/
inductive PrintfArg where
  | int (v : Int)
  | uint (v : Nat)
  | str (s : String)

/-- Conversion `%d`: signed decimal. -/
def fmt_d (v : Int) : String := toString v

/-- Conversion `%u`: unsigned decimal. -/
def fmt_u (v : Nat) : String := toString v

/-- Value of a run of decimal digits, most significant first, continuing from `acc`. -/
def digits_value (acc : Nat) (cs : List Char) : Nat :=
  cs.foldl (fun a c => 10 * a + (c.toNat - 48)) acc

/-- Reading of a signed decimal numeral. -/
def read_decimal (s : String) : Int :=
  match s.data with
  | '-' :: cs => -(digits_value 0 cs : Int)
  | cs => (digits_value 0 cs : Int)

/-- Conversion `%.*s`: at most `n` bytes of `s`; a negative precision is taken as
if it were omitted. -/
def fmt_prec_s (n : Int) (s : String) : String :=
  if n < 0 then s else String.mk (s.data.take n.toNat)

/-- Expansion of a `printf` format over its arguments.  The conversions are the ones
the program uses: `%d`, `%u`, `%s` and `%.*s`; every other byte is copied. -/
def vformat : List Char → List PrintfArg → List Char
  | [], _ => []
  | '%' :: 'd' :: fmt, .int v :: args => (fmt_d v).data ++ vformat fmt args
  | '%' :: 'u' :: fmt, .uint v :: args => (fmt_u v).data ++ vformat fmt args
  | '%' :: 's' :: fmt, .str s :: args => s.data ++ vformat fmt args
  | '%' :: '.' :: '*' :: 's' :: fmt, .int n :: .str s :: args =>
      (fmt_prec_s n s).data ++ vformat fmt args
  | c :: fmt, args => c :: vformat fmt args

/-- Model of `fprintf(stream, format, ...)`. -/
def fprintf (out : FILE) (format : String) (args : List PrintfArg) : FILE :=
  out ++ String.mk (vformat format.data args)

/-- Model of `fputs(s, stream)`. -/
def fputs (s : String) (out : FILE) : FILE := out ++ s

/-- Model of `fflush(stream)`: the text written is unchanged. -/
def fflush (out : FILE) : FILE := out

/-! ## Toolkit parts outside the example -/

/-- Modelled from the spec: FL/Enumerations.H is not among the sources; the flat-cap
flag of a line style is 0x100. -/
def FL_CAP_FLAT : Int := 0x100

/-- Modelled from the spec: FL/Enumerations.H is not among the sources; the round-cap
flag of a line style is 0x200. -/
def FL_CAP_ROUND : Int := 0x200

/-- Modelled from the spec: FL/Enumerations.H is not among the sources; the square-cap
flag of a line style is 0x300. -/
def FL_CAP_SQUARE : Int := 0x300

/-- Modelled from the spec: the base class `Fl_Graphics_Driver` of FL/Fl_Graphics_Driver.H
is not among the sources; it keeps the current font index, point size and indexed
color of the font and pen state. -/
structure Fl_Graphics_Driver where
  font_ : Int
  size_ : Int
  color_ : Nat
  deriving DecidableEq

/-- Modelled from the spec: `Fl_Graphics_Driver::font(face, size)` records the font
index and the point size. -/
def Fl_Graphics_Driver.font (b : Fl_Graphics_Driver) (face fsize : Int) : Fl_Graphics_Driver :=
  { b with font_ := face, size_ := fsize }

/-- Modelled from the spec: `Fl_Graphics_Driver::size()` is the current point size. -/
def Fl_Graphics_Driver.size (b : Fl_Graphics_Driver) : Int := b.size_

/-- Modelled from the spec: `Fl_Graphics_Driver::color(c)` records the indexed color. -/
def Fl_Graphics_Driver.color (b : Fl_Graphics_Driver) (c : Nat) : Fl_Graphics_Driver :=
  { b with color_ := c }

/-- Modelled from the spec: the active on-screen renderer
(`Fl_Display_Device::display_device()->driver()`) and the color table of `Fl::get_color`
are external; the renderer has a current font and answers metric queries for it. -/
structure Fl_Display_Driver where
  font_ : Int
  size_ : Int
  text_width : Int → Int → String → Int → ℚ
  text_height : Int → Int → Int
  text_descent : Int → Int → Int
  get_color : Nat → Nat × Nat × Nat

/-- Modelled from the spec: selecting a font on the on-screen renderer. -/
def Fl_Display_Driver.font (p : Fl_Display_Driver) (face fsize : Int) : Fl_Display_Driver :=
  { p with font_ := face, size_ := fsize }

/-- Modelled from the spec: width of the first `n` bytes of `str` in the current font of
the on-screen renderer. -/
def Fl_Display_Driver.width (p : Fl_Display_Driver) (str : String) (n : Int) : ℚ :=
  p.text_width p.font_ p.size_ str n

/-- Modelled from the spec: line height of the current font of the on-screen renderer. -/
def Fl_Display_Driver.height (p : Fl_Display_Driver) : Int := p.text_height p.font_ p.size_

/-- Modelled from the spec: descent of the current font of the on-screen renderer. -/
def Fl_Display_Driver.descent (p : Fl_Display_Driver) : Int := p.text_descent p.font_ p.size_

/-! ## `SVG_Graphics_Driver` -/

/-- The class `SVG_Graphics_Driver`; `base` is its `Fl_Graphics_Driver` part. -/
structure SVG_Graphics_Driver where
  base : Fl_Graphics_Driver
  out_ : FILE
  width_ : Int
  linecap_ : String
  red_ : Nat
  green_ : Nat
  blue_ : Nat
  family_ : String
  bold_ : String
  style_ : String
  deriving DecidableEq

/-- Constructor `SVG_Graphics_Driver::SVG_Graphics_Driver(FILE*)`; `b` is the state the
base-class constructor leaves. -/
def SVG_Graphics_Driver.ctor (b : Fl_Graphics_Driver) (f : FILE) : SVG_Graphics_Driver :=
  { base := b
    out_ := f
    width_ := 1
    linecap_ := "butt"
    family_ := ""
    bold_ := ""
    style_ := ""
    red_ := 0
    green_ := 0
    blue_ := 0 }

/-- Member `file()`. -/
def SVG_Graphics_Driver.file (d : SVG_Graphics_Driver) : FILE := d.out_

/-- Member `rect(x, y, w, h)`. -/
def SVG_Graphics_Driver.rect (d : SVG_Graphics_Driver) (x y w h : Int) : SVG_Graphics_Driver :=
  { d with
    out_ := fprintf d.out_
      ("<rect x=\"%d\" y=\"%d\" width=\"%d\" height=\"%d\" " ++
       "fill=\"none\" stroke=\"rgb(%u,%u,%u)\" stroke-width=\"%d\"/>\n")
      [.int x, .int y, .int w, .int h, .uint d.red_, .uint d.green_, .uint d.blue_,
       .int d.width_] }

/-- Member `rectf(x, y, w, h)`. -/
def SVG_Graphics_Driver.rectf (d : SVG_Graphics_Driver) (x y w h : Int) : SVG_Graphics_Driver :=
  { d with
    out_ := fprintf d.out_
      ("<rect x=\"%d\" y=\"%d\" width=\"%d\" height=\"%d\" " ++
       "fill=\"rgb(%u,%u,%u)\" />\n")
      [.int x, .int y, .int w, .int h, .uint d.red_, .uint d.green_, .uint d.blue_] }

/-- Member `line(x1, y1, x2, y2)`. -/
def SVG_Graphics_Driver.line (d : SVG_Graphics_Driver) (x1 y1 x2 y2 : Int) :
    SVG_Graphics_Driver :=
  { d with
    out_ := fprintf d.out_
      ("<line x1=\"%d\" y1=\"%d\" x2=\"%d\" y2=\"%d\" " ++
       "style=\"stroke:rgb(%u,%u,%u);stroke-width:%d;stroke-linecap:%s\" />\n")
      [.int x1, .int y1, .int x2, .int y2, .uint d.red_, .uint d.green_, .uint d.blue_,
       .int d.width_, .str d.linecap_] }

/-- Member `font_(ft, s)`; `/` and `%` on `int` truncate toward zero. -/
def SVG_Graphics_Driver.font_ (d : SVG_Graphics_Driver) (ft s : Int) : SVG_Graphics_Driver :=
  let d := { d with base := d.base.font ft s }
  let famnum := Int.tdiv ft 4
  let d :=
    if famnum = 0 then { d with family_ := "Helvetica" }
    else if famnum = 1 then { d with family_ := "Courier" }
    else { d with family_ := "Times" }
  let modulo := Int.tmod ft 4
  let use_bold : Bool := modulo = 1 || modulo = 3
  let use_italic : Bool := modulo ≥ 2
  let d := { d with bold_ := if use_bold then " font-weight=\"bold\"" else "" }
  let d := { d with style_ := if use_italic then " font-style=\"italic\"" else "" }
  if use_italic && famnum ≠ 2 then { d with style_ := " font-style=\"oblique\"" } else d

/-- Member `font(ft, s)`: the on-screen renderer is told first, then `font_` runs. -/
def SVG_Graphics_Driver.font (p : Fl_Display_Driver) (d : SVG_Graphics_Driver) (ft s : Int) :
    Fl_Display_Driver × SVG_Graphics_Driver :=
  (p.font ft s, d.font_ ft s)

/-- Member `line_style(style, width, dashes)`; a C condition holds when the value is
not zero. -/
def SVG_Graphics_Driver.line_style (d : SVG_Graphics_Driver) (style width : Int)
    (_dashes : Option String) : SVG_Graphics_Driver :=
  let width := if width = 0 then 1 else width
  let d := { d with width_ := width }
  let d := if Int.land style FL_CAP_SQUARE ≠ 0 then { d with linecap_ := "square" } else d
  if Int.land style FL_CAP_ROUND ≠ 0 then { d with linecap_ := "round" }
  else { d with linecap_ := "butt" }

/-- Member `width(str, l)`: the query is passed on to the on-screen renderer. -/
def SVG_Graphics_Driver.width (p : Fl_Display_Driver) (str : String) (l : Int) : ℚ :=
  p.width str l

/-- Member `height()`: the query is passed on to the on-screen renderer. -/
def SVG_Graphics_Driver.height (p : Fl_Display_Driver) : Int := p.height

/-- Member `descent()`: the query is passed on to the on-screen renderer. -/
def SVG_Graphics_Driver.descent (p : Fl_Display_Driver) : Int := p.descent

/-- Member `draw(str, n, x, y)` with integer position. -/
def SVG_Graphics_Driver.draw (p : Fl_Display_Driver) (d : SVG_Graphics_Driver)
    (str : String) (n x y : Int) : SVG_Graphics_Driver :=
  { d with
    out_ := fprintf d.out_
      ("<text x=\"%d\" y=\"%d\" font-family=\"%s\"%s%s font-size=\"%d\" " ++
       "xml:space=\"preserve\" " ++
       " fill=\"rgb(%u,%u,%u)\" textLength=\"%d\">%.*s</text>\n")
      [.int x, .int y, .str d.family_, .str d.bold_, .str d.style_, .int d.base.size,
       .uint d.red_, .uint d.green_, .uint d.blue_,
       .int (trunc_int (SVG_Graphics_Driver.width p str n)), .int n, .str str] }

/-- Member `draw(str, n, fx, fy)` with floating position. -/
def SVG_Graphics_Driver.draw_float (p : Fl_Display_Driver) (d : SVG_Graphics_Driver)
    (str : String) (n : Int) (fx fy : ℚ) : SVG_Graphics_Driver :=
  d.draw p str n (trunc_int fx) (trunc_int fy)

/-- Member `draw(angle, str, n, x, y)`: rotated text. -/
def SVG_Graphics_Driver.draw_angle (p : Fl_Display_Driver) (d : SVG_Graphics_Driver)
    (angle : Int) (str : String) (n x y : Int) : SVG_Graphics_Driver :=
  let d :=
    { d with
      out_ := fprintf d.out_ "<g transform=\"translate(%d,%d) rotate(%d)\">"
        [.int x, .int y, .int (neg32 angle)] }
  let d := d.draw p str n 0 0
  { d with out_ := fputs "</g>\n" d.out_ }

/-- Member `color(Fl_Color c)`: the triple comes from the color table. -/
def SVG_Graphics_Driver.color_index (p : Fl_Display_Driver) (d : SVG_Graphics_Driver)
    (c : Nat) : SVG_Graphics_Driver :=
  let d := { d with base := d.base.color c }
  { d with
    red_ := to_uchar (p.get_color c).1
    green_ := to_uchar (p.get_color c).2.1
    blue_ := to_uchar (p.get_color c).2.2 }

/-- Member `color(uchar r, uchar g, uchar b)`. -/
def SVG_Graphics_Driver.color (d : SVG_Graphics_Driver) (r g b : Nat) : SVG_Graphics_Driver :=
  let d := { d with red_ := to_uchar r }
  let d := { d with green_ := to_uchar g }
  { d with blue_ := to_uchar b }

/-! ## `SVG_File_Surface` -/

/-- The class `SVG_File_Surface`; `driver_` is the driver its base class
`Fl_Surface_Device` holds. -/
structure SVG_File_Surface where
  width_ : Int
  height_ : Int
  driver_ : SVG_Graphics_Driver

/-- Constructor `SVG_File_Surface::SVG_File_Surface(w, h, f)`. -/
def SVG_File_Surface.ctor (b : Fl_Graphics_Driver) (w h : Int) (f : FILE) : SVG_File_Surface :=
  let f := fprintf f
    ("<?xml version=\"1.0\" encoding=\"utf-8\" standalone=\"no\"?>\n" ++
     "<!DOCTYPE svg PUBLIC \"-//W3C//DTD SVG 1.1//EN\" \n" ++
     "\"http://www.w3.org/Graphics/SVG/1.1/DTD/svg11.dtd\">\n" ++
     "<svg width=\"%dpx\" height=\"%dpx\" viewBox=\"0 0 %d %d\"\n" ++
     "xmlns=\"http://www.w3.org/2000/svg\" version=\"1.1\">\n")
    [.int w, .int h, .int w, .int h]
  { width_ := w, height_ := h, driver_ := SVG_Graphics_Driver.ctor b f }

/-- Member `width()`. -/
def SVG_File_Surface.width (s : SVG_File_Surface) : Int := s.width_

/-- Member `height()`. -/
def SVG_File_Surface.height (s : SVG_File_Surface) : Int := s.height_

/-- Member `driver()`. -/
def SVG_File_Surface.driver (s : SVG_File_Surface) : SVG_Graphics_Driver := s.driver_

/-- Destructor `SVG_File_Surface::~SVG_File_Surface()`; the result is the text the
stream holds once the driver is deleted. -/
def SVG_File_Surface.dtor (s : SVG_File_Surface) : FILE :=
  let driver := s.driver
  let f := fputs "</svg>\n" driver.file
  fflush f

/-! ## Sample objects used by the concrete evaluations -/

/-- A base-class state: font 0, size 0, color 0. -/
def sample_base : Fl_Graphics_Driver := { font_ := 0, size_ := 0, color_ := 0 }

/-- A freshly constructed driver writing to an empty stream. -/
def sample_driver : SVG_Graphics_Driver := SVG_Graphics_Driver.ctor sample_base ""

/-- An on-screen renderer whose fonts are 7 units wide per byte. -/
def sample_display : Fl_Display_Driver :=
  { font_ := 0
    size_ := 14
    text_width := fun _ _ _ n => 7 * (n : ℚ)
    text_height := fun _ s => s
    text_descent := fun _ _ => 3
    get_color := fun c => (c % 256, (c / 256) % 256, (c / 65536) % 256) }

/-! ## Sequences of calls -/

/-- One call on the driver, as the toolkit issues it while a surface is current. -/
inductive DriverCall where
  | rect (x y w h : Int)
  | rectf (x y w h : Int)
  | line (x1 y1 x2 y2 : Int)
  | draw (str : String) (n x y : Int)
  | draw_float (str : String) (n : Int) (fx fy : ℚ)
  | draw_angle (angle : Int) (str : String) (n x y : Int)
  | color (r g b : Nat)
  | color_index (c : Nat)
  | line_style (style width : Int) (dashes : Option String)
  | font_ (ft s : Int)
  | font (ft s : Int)

/-- Effect of one call on the on-screen renderer and the driver. -/
def DriverCall.apply (c : DriverCall) (w : Fl_Display_Driver × SVG_Graphics_Driver) :
    Fl_Display_Driver × SVG_Graphics_Driver :=
  match c with
  | .rect x y wd h => (w.1, w.2.rect x y wd h)
  | .rectf x y wd h => (w.1, w.2.rectf x y wd h)
  | .line x1 y1 x2 y2 => (w.1, w.2.line x1 y1 x2 y2)
  | .draw str n x y => (w.1, w.2.draw w.1 str n x y)
  | .draw_float str n fx fy => (w.1, w.2.draw_float w.1 str n fx fy)
  | .draw_angle angle str n x y => (w.1, w.2.draw_angle w.1 angle str n x y)
  | .color r g b => (w.1, w.2.color r g b)
  | .color_index c => (w.1, w.2.color_index w.1 c)
  | .line_style style width dashes => (w.1, w.2.line_style style width dashes)
  | .font_ ft s => (w.1, w.2.font_ ft s)
  | .font ft s => SVG_Graphics_Driver.font w.1 w.2 ft s

/-- Effect of a sequence of calls, first call first. -/
def run_calls (calls : List DriverCall) (w : Fl_Display_Driver × SVG_Graphics_Driver) :
    Fl_Display_Driver × SVG_Graphics_Driver :=
  calls.foldl (fun w c => c.apply w) w

/-- Whether a call replaces the pen color. -/
def DriverCall.sets_color : DriverCall → Bool
  | .color _ _ _ => true
  | .color_index _ => true
  | _ => false

/-- Whether a call replaces the stroke width and the cap. -/
def DriverCall.sets_line_style : DriverCall → Bool
  | .line_style _ _ _ => true
  | _ => false

/-! ## Elements of the output format, after the specification -/

/-- Stroked rectangle: position, size, no fill, stroke color and stroke width. -/
def spec_rect_element (r g b : Nat) (sw x y w h : Int) : String :=
  "<rect x=\"" ++ fmt_d x ++ "\" y=\"" ++ fmt_d y ++ "\" width=\"" ++ fmt_d w ++
    "\" height=\"" ++ fmt_d h ++ "\" fill=\"none\" stroke=\"rgb(" ++ fmt_u r ++ "," ++
    fmt_u g ++ "," ++ fmt_u b ++ ")\" stroke-width=\"" ++ fmt_d sw ++ "\"/>\n"

/-- Filled rectangle: position, size and fill color. -/
def spec_rectf_element (r g b : Nat) (x y w h : Int) : String :=
  "<rect x=\"" ++ fmt_d x ++ "\" y=\"" ++ fmt_d y ++ "\" width=\"" ++ fmt_d w ++
    "\" height=\"" ++ fmt_d h ++ "\" fill=\"rgb(" ++ fmt_u r ++ "," ++
    fmt_u g ++ "," ++ fmt_u b ++ ")\" />\n"

/-- Line segment: end points, stroke color, stroke width and cap. -/
def spec_line_element (r g b : Nat) (sw : Int) (cap : String) (x1 y1 x2 y2 : Int) : String :=
  "<line x1=\"" ++ fmt_d x1 ++ "\" y1=\"" ++ fmt_d y1 ++ "\" x2=\"" ++ fmt_d x2 ++
    "\" y2=\"" ++ fmt_d y2 ++ "\" style=\"stroke:rgb(" ++ fmt_u r ++ "," ++
    fmt_u g ++ "," ++ fmt_u b ++ ");stroke-width:" ++ fmt_d sw ++
    ";stroke-linecap:" ++ cap ++ "\" />\n"

/-- Text element: position, font attributes, fill color, width hint and content. -/
def spec_text_element (family bold style : String) (size : Int) (r g b : Nat)
    (text_length : Int) (content : String) (x y : Int) : String :=
  "<text x=\"" ++ fmt_d x ++ "\" y=\"" ++ fmt_d y ++ "\" font-family=\"" ++
    family ++ "\"" ++ bold ++ style ++ " font-size=\"" ++ fmt_d size ++
    "\" xml:space=\"preserve\"  fill=\"rgb(" ++ fmt_u r ++ "," ++ fmt_u g ++
    "," ++ fmt_u b ++ ")\" textLength=\"" ++ fmt_d text_length ++
    "\">" ++ content ++ "</text>\n"

/-- Group element with a translation and a rotation around its content. -/
def spec_group_element (x y rotation : Int) (content : String) : String :=
  "<g transform=\"translate(" ++ fmt_d x ++ "," ++ fmt_d y ++ ") rotate(" ++
    fmt_d rotation ++ ")\">" ++ content ++ "</g>\n"

/-- Text the specification lets a call append in the state `d`: one element for a
drawing call, a group around one text element for rotated text, nothing for a setter. -/
def spec_appended (p : Fl_Display_Driver) (d : SVG_Graphics_Driver) : DriverCall → String
  | .rect x y w h => spec_rect_element d.red_ d.green_ d.blue_ d.width_ x y w h
  | .rectf x y w h => spec_rectf_element d.red_ d.green_ d.blue_ x y w h
  | .line x1 y1 x2 y2 =>
      spec_line_element d.red_ d.green_ d.blue_ d.width_ d.linecap_ x1 y1 x2 y2
  | .draw str n x y =>
      spec_text_element d.family_ d.bold_ d.style_ d.base.size_ d.red_ d.green_ d.blue_
        (trunc_int (p.width str n)) (fmt_prec_s n str) x y
  | .draw_float str n fx fy =>
      spec_text_element d.family_ d.bold_ d.style_ d.base.size_ d.red_ d.green_ d.blue_
        (trunc_int (p.width str n)) (fmt_prec_s n str) (trunc_int fx) (trunc_int fy)
  | .draw_angle angle str n x y =>
      spec_group_element x y (neg32 angle)
        (spec_text_element d.family_ d.bold_ d.style_ d.base.size_ d.red_ d.green_ d.blue_
          (trunc_int (p.width str n)) (fmt_prec_s n str) 0 0)
  | .color _ _ _ => ""
  | .color_index _ => ""
  | .line_style _ _ _ => ""
  | .font_ _ _ => ""
  | .font _ _ => ""

/-! ## Value domains of the pen and font state -/

/-- Value domains of the pen and font state, after the specification: the stroke
width is not 0, the cap is "butt", "round" or "square", every color channel is at most
255, the weight attribute is absent or bold, the style attribute is absent, italic or
oblique. -/
def spec_pen_font_domains (d : SVG_Graphics_Driver) : Prop :=
  d.width_ ≠ 0 ∧
  (d.linecap_ = "butt" ∨ d.linecap_ = "round" ∨ d.linecap_ = "square") ∧
  (d.red_ ≤ 255 ∧ d.green_ ≤ 255 ∧ d.blue_ ≤ 255) ∧
  (d.bold_ = "" ∨ d.bold_ = " font-weight=\"bold\"") ∧
  (d.style_ = "" ∨ d.style_ = " font-style=\"italic\"" ∨
    d.style_ = " font-style=\"oblique\"")

/-! ## `test/flink.cxx`: C runtime and toolkit parts -/

/-- Model of `strlen(s)`. -/
def strlen (s : String) : Nat := s.length

/-- Model of `strcpy(dst, src)` for a buffer `dst` of `cap` bytes: the new content of
`dst`.  The copy is defined only when the string and its terminating NUL fit into the
buffer; a copy past the end of the buffer has no result. -/
def strcpy (cap : Nat) (src : String) : Option String :=
  if strlen src < cap then some src else none

/-- Model of `strcat(dst, src)` for a buffer `dst` of `cap` bytes: the new content of
`dst`.  The result is defined only when both strings and the terminating NUL fit into
the buffer. -/
def strcat (cap : Nat) (dst src : String) : Option String :=
  if strlen (dst ++ src) < cap then some (dst ++ src) else none

/-- Model of `sizeof(a)` for an array of bytes. -/
def sizeof (a : String) : Nat := a.length

/-- Model of `s[i]` for a character buffer holding the C string `s`: the bytes of `s`
are followed by the terminating NUL. -/
def c_index (s : String) (i : Nat) : Char := (s.data ++ [Char.ofNat 0]).getD i (Char.ofNat 0)

/-- Modelled from the spec: the process state the scaffolder acts on, which is the
current directory, the directories that exist and the regular files with their bytes.
The source checks no result, and only runs in which every directory creation and every
open succeed are modelled. -/
structure Flink_World where
  cwd : String
  dirs : String → Bool
  files : String → Option String

/-- Modelled from the spec: the three widgets of flink_ui.h with the values they hold:
the source root, the destination root and the flag to delete an existing project. -/
structure Flink_UI where
  wSourceFolder : String
  wProjectFolder : String
  wDeleteExistingProject : Int

/-- The four icon arrays, declared outside flink.cxx, are parameters. -/
structure Flink_Icons where
  mdpi_ic_launcher : String
  hdpi_ic_launcher : String
  xhdpi_ic_launcher : String
  xxhdpi_ic_launcher : String

/-- The constant and the path functions of FL/filename.H, defined outside flink.cxx, are
parameters: `FL_PATH_MAX` is the size in bytes of the path buffers; `chdir` gives the
current directory after `fl_chdir`, from the directories that exist, the current
directory before and the argument; `absolute` gives the absolute name of a path seen
from a current directory. -/
structure Fl_Filename where
  FL_PATH_MAX : Nat
  chdir : (String → Bool) → String → String → String
  absolute : String → String → String

/-- Model of `fl_chdir(d)`. -/
def fl_chdir (sys : Fl_Filename) (w : Flink_World) (d : String) : Flink_World :=
  { w with cwd := sys.chdir w.dirs w.cwd d }

/-- Model of `fl_filename_absolute(to, tolen, from)`: the new content of `to`, which is
the absolute name cut to the `tolen - 1` bytes that fit in front of the NUL. -/
def fl_filename_absolute (sys : Fl_Filename) (w : Flink_World) (tolen : Nat)
    (from_ : String) : String :=
  String.mk ((sys.absolute w.cwd from_).data.take (tolen - 1))

/-- The names of the directories on the way to a path: every part of the path that ends
just before a slash. -/
def path_ancestors_chars : List Char → List (List Char)
  | [] => []
  | c :: cs =>
      (if c = '/' then [[]] else []) ++ (path_ancestors_chars cs).map (fun a => c :: a)

/-- The names of the directories on the way to a path, as strings. -/
def path_ancestors (path : String) : List String :=
  (path_ancestors_chars path.data).map String.mk

/-- Modelled from the spec: `fl_make_path(path)` ensures that the directory `path` and
every directory on the way to it exist. -/
def fl_make_path (w : Flink_World) (path : String) : Flink_World :=
  { w with dirs := fun q => w.dirs q || (decide (q = path) || decide (q ∈ path_ancestors path)) }

/-- Modelled from the spec: `fl_make_path_for_file(path)` ensures that the parent
directory of the file `path` and every directory on the way to it exist. -/
def fl_make_path_for_file (w : Flink_World) (path : String) : Flink_World :=
  { w with dirs := fun q => w.dirs q || decide (q ∈ path_ancestors path) }

/-- Modelled from the spec: `fl_fopen(filename, mode)`; the stream returned is named by
the path it is open on.  A mode starting with w creates the file or truncates it, a
mode starting with a creates the file if it is missing. -/
def fl_fopen (w : Flink_World) (filename mode : String) : Flink_World × String :=
  if mode.data.head? = some 'w' then
    ({ w with files := fun q => if q = filename then some "" else w.files q }, filename)
  else if mode.data.head? = some 'a' then
    ({ w with
       files := fun q => if q = filename then some ((w.files q).getD "") else w.files q },
     filename)
  else (w, filename)

/-- Model of `fwrite(ptr, size, nmemb, stream)`: `size * nmemb` bytes of `ptr` are added
at the end of the file. -/
def fwrite (w : Flink_World) (ptr : String) (size nmemb : Nat) (stream : String) :
    Flink_World :=
  { w with
    files := fun q =>
      if q = stream then
        (w.files q).map (fun old => old ++ String.mk (ptr.data.take (size * nmemb)))
      else w.files q }

/-- Model of `fclose(stream)`: the bytes written stay. -/
def fclose (w : Flink_World) (_stream : String) : Flink_World := w

/-! ## `test/flink.cxx`: the scaffolder -/

/-- Text passed for the file FL/abi-version.h. -/
def text_FL_abi_version_h : String :=
  "/* #undef FL_ABI_VERSION */\n"

/-- Text passed for the file build.gradle. -/
def text_build_gradle : String :=
  "buildscript \x7b\n" ++
  "    repositories \x7b\n" ++
  "        jcenter()\n" ++
  "        google()\n" ++
  "    \x7d\n" ++
  "    dependencies \x7b\n" ++
  "        classpath \x27com.android.tools.build:gradle:3.5.3\x27\n" ++
  "    \x7d\n" ++
  "\x7d\n\n" ++
  "allprojects \x7b\n" ++
  "    repositories \x7b\n" ++
  "        jcenter()\n" ++
  "        google()\n" ++
  "    \x7d\n" ++
  "\x7d\n"

/-- Text passed for the file settings.gradle. -/
def text_settings_gradle : String :=
  "include \x27:fltk\x27\n" ++
  "include \x27:adjuster\x27\n"

/-- Text passed for the file config.h. -/
def text_config_h : String :=
  "#define FLTK_DATADIR \"/usr/local/share/fltk\"\n" ++
  "#define FLTK_DOCDIR \"/usr/local/share/doc/fltk\"\n" ++
  "#define BORDER_WIDTH 2\n" ++
  "#define HAVE_GL 0\n" ++
  "#define HAVE_GL_GLU_H 0\n" ++
  "/* #undef HAVE_GLXGETPROCADDRESSARB */\n" ++
  "#define USE_COLORMAP 1\n" ++
  "#define HAVE_XINERAMA 0\n" ++
  "#define USE_XFT 0\n" ++
  "#define USE_PANGO 0\n" ++
  "#define HAVE_XDBE 0\n" ++
  "#define USE_XDBE HAVE_XDBE\n" ++
  "#define HAVE_XFIXES 0\n" ++
  "#define HAVE_XCURSOR 0\n" ++
  "#define HAVE_XRENDER 0\n" ++
  "#define HAVE_X11_XREGION_H 0\n" ++
  "/* #undef __APPLE_QUARTZ__ */\n" ++
  "/* #undef USE_X11 */\n" ++
  "/* #undef USE_SDL */\n" ++
  "#define HAVE_OVERLAY 0\n" ++
  "#define HAVE_GL_OVERLAY HAVE_OVERLAY\n" ++
  "#define WORDS_BIGENDIAN 0\n" ++
  "#define U16 unsigned short\n" ++
  "#define U32 unsigned\n" ++
  "#define U64 unsigned long\n" ++
  "#define HAVE_DIRENT_H 1\n" ++
  "#define HAVE_SCANDIR 1\n" ++
  "#define HAVE_SCANDIR_POSIX 1\n" ++
  "#define HAVE_VSNPRINTF 1\n" ++
  "#define HAVE_SNPRINTF 1\n" ++
  "#define HAVE_STRINGS_H 1\n" ++
  "#define HAVE_STRCASECMP 1\n" ++
  "#define HAVE_STRLCAT 1\n" ++
  "#define HAVE_STRLCPY 1\n" ++
  "#define HAVE_LOCALE_H 1\n" ++
  "#define HAVE_LOCALECONV 1\n" ++
  "#define HAVE_SYS_SELECT_H 1\n" ++
  "/* #undef HAVE_SYS_STDTYPES_H */\n" ++
  "#define USE_POLL 0\n" ++
  "#define HAVE_LIBPNG 1\n" ++
  "#define HAVE_LIBZ 1\n" ++
  "#define HAVE_LIBJPEG 1\n" ++
  "/* #undef FLTK_USE_CAIRO */\n" ++
  "/* #undef FLTK_HAVE_CAIRO */\n" ++
  "#define HAVE_PNG_H 1\n" ++
  "/* #undef HAVE_LIBPNG_PNG_H */\n" ++
  "#define HAVE_PNG_GET_VALID 1\n" ++
  "#define HAVE_PNG_SET_TRNS_TO_ALPHA 1\n" ++
  "#define FLTK_USE_NANOSVG 1\n" ++
  "#define HAVE_PTHREAD 1\n" ++
  "#define HAVE_PTHREAD_H 1\n" ++
  "/* #undef HAVE_ALSA_ASOUNDLIB_H */\n" ++
  "#define HAVE_LONG_LONG 1\n" ++
  "#define FLTK_LLFMT \"%lld\"\n" ++
  "#define FLTK_LLCAST (long long)\n" ++
  "#define HAVE_DLFCN_H 1\n" ++
  "#define HAVE_DLSYM 1\n" ++
  "#define FL_NO_PRINT_SUPPORT 1\n" ++
  "/* #undef FL_CFG_NO_FILESYSTEM_SUPPORT */\n"

/-- Text passed for the file fltk/build.gradle. -/
def text_fltk_build_gradle : String :=
  "apply plugin: \x27com.android.library\x27\n\n" ++
  "android \x7b\n" ++
  "  compileSdkVersion 26\n" ++
  "  defaultConfig \x7b\n" ++
  "    minSdkVersion 14\n" ++
  "    targetSdkVersion 26\n" ++
  "    externalNativeBuild \x7b\n" ++
  "      cmake \x7b\n" ++
  "        arguments \x27-DANDROID_STL=c++_shared\x27\n" ++
  "        targets \x27fltk\x27\n" ++
  "      \x7d\n" ++
  "    \x7d\n" ++
  "  \x7d\n" ++
  "  buildTypes \x7b\n" ++
  "    release \x7b\n" ++
  "      minifyEnabled false\n" ++
  "    \x7d\n" ++
  "  \x7d\n" ++
  "  externalNativeBuild \x7b\n" ++
  "    cmake \x7b\n" ++
  "      path \x27src/main/cpp/CMakeLists.txt\x27\n" ++
  "    \x7d\n" ++
  "  \x7d\n" ++
  "\x7d\n"

/-- Text passed for the file fltk/src/main/AndroidManifest.xml. -/
def text_fltk_src_main_AndroidManifest_xml : String :=
  "<?xml version=\"1.0\" encoding=\"utf-8\"?>\n" ++
  "<manifest xmlns:android=\"http://schemas.android.com/apk/res/android\"\n" ++
  "          package=\"org.fltk.fltk\">\n" ++
  "</manifest>\n"

/-- Text passed for the file fltk/src/main/cpp/CMakeLists.txt. -/
def text_fltk_src_main_cpp_CMakeLists_txt : String :=
  "cmake_minimum_required(VERSION 3.6)\n" ++
  "\n" ++
  "set(CMAKE_VERBOSE_MAKEFILE on)\n" ++
  "\n" ++
  "set(FLTK_DIR \"/Users/matt/dev/fltk-1.4.git\")\n" ++
  "set(FLTK_IDE_DIR \"../../../..\")\n" ++
  "set(CMAKE_CXX_FLAGS \"$\x7bCMAKE_CXX_FLAGS\x7d -std=c++11\")\n" ++
  "\n" ++
  "function(list_transform_prepend var prefix)\n" ++
  "    set(temp \"\")\n" ++
  "    foreach(f $\x7b$\x7bvar\x7d\x7d)\n" ++
  "        list(APPEND temp \"$\x7bprefix\x7d$\x7bf\x7d\")\n" ++
  "    endforeach()\n" ++
  "    set($\x7bvar\x7d \"$\x7btemp\x7d\" PARENT_SCOPE)\n" ++
  "endfunction()\n" ++
  "\n" ++
  "set (CPPFILES\n" ++
  "  Fl.cxx\n" ++
  "  Fl_Adjuster.cxx\n" ++
  "  Fl_Bitmap.cxx\n" ++
  "  Fl_Browser.cxx\n" ++
  "  Fl_Browser_.cxx\n" ++
  "  Fl_Browser_load.cxx\n" ++
  "  Fl_Box.cxx\n" ++
  "  Fl_Button.cxx\n" ++
  "  Fl_Chart.cxx\n" ++
  "  Fl_Check_Browser.cxx\n" ++
  "  Fl_Check_Button.cxx\n" ++
  "  Fl_Choice.cxx\n" ++
  "  Fl_Clock.cxx\n" ++
  "  Fl_Color_Chooser.cxx\n" ++
  "  Fl_Copy_Surface.cxx\n" ++
  "  Fl_Counter.cxx\n" ++
  "  Fl_Device.cxx\n" ++
  "  Fl_Dial.cxx\n" ++
  "  Fl_Help_Dialog_Dox.cxx\n" ++
  "  Fl_Double_Window.cxx\n" ++
  "  Fl_File_Browser.cxx\n" ++
  "  Fl_File_Chooser.cxx\n" ++
  "  Fl_File_Chooser2.cxx\n" ++
  "  Fl_File_Icon.cxx\n" ++
  "  Fl_File_Input.cxx\n" ++
  "  Fl_Graphics_Driver.cxx\n" ++
  "  Fl_Group.cxx\n" ++
  "  Fl_Help_View.cxx\n" ++
  "  Fl_Image.cxx\n" ++
  "  Fl_Image_Surface.cxx\n" ++
  "  Fl_Input.cxx\n" ++
  "  Fl_Input_.cxx\n" ++
  "  Fl_Input_Choice.cxx\n" ++
  "  Fl_Light_Button.cxx\n" ++
  "  Fl_Menu.cxx\n" ++
  "  Fl_Menu_.cxx\n" ++
  "  Fl_Menu_Bar.cxx\n" ++
  "  Fl_Menu_Button.cxx\n" ++
  "  Fl_Menu_Window.cxx\n" ++
  "  Fl_Menu_add.cxx\n" ++
  "  Fl_Menu_global.cxx\n" ++
  "  Fl_Multi_Label.cxx\n" ++
  "  Fl_Native_File_Chooser.cxx\n" ++
  "  Fl_Overlay_Window.cxx\n" ++
  "  Fl_Pack.cxx\n" ++
  "  Fl_Paged_Device.cxx\n" ++
  "  Fl_Pixmap.cxx\n" ++
  "  Fl_Positioner.cxx\n" ++
  "  Fl_Preferences.cxx\n" ++
  "  Fl_Printer.cxx\n" ++
  "  Fl_Progress.cxx\n" ++
  "  Fl_Repeat_Button.cxx\n" ++
  "  Fl_Return_Button.cxx\n" ++
  "  Fl_Roller.cxx\n" ++
  "  Fl_Round_Button.cxx\n" ++
  "  Fl_Screen_Driver.cxx\n" ++
  "  Fl_Scroll.cxx\n" ++
  "  Fl_Scrollbar.cxx\n" ++
  "  Fl_Shared_Image.cxx\n" ++
  "  Fl_Simple_Terminal.cxx\n" ++
  "  Fl_Single_Window.cxx\n" ++
  "  Fl_Slider.cxx\n" ++
  "  Fl_Spinner.cxx\n" ++
  "  Fl_Sys_Menu_Bar.cxx\n" ++
  "  Fl_System_Driver.cxx\n" ++
  "  Fl_Table.cxx\n" ++
  "  Fl_Table_Row.cxx\n" ++
  "  Fl_Tabs.cxx\n" ++
  "  Fl_Text_Buffer.cxx\n" ++
  "  Fl_Text_Display.cxx\n" ++
  "  Fl_Text_Editor.cxx\n" ++
  "  Fl_Tile.cxx\n" ++
  "  Fl_Tiled_Image.cxx\n" ++
  "  Fl_Tooltip.cxx\n" ++
  "  Fl_Tree.cxx\n" ++
  "  Fl_Tree_Item_Array.cxx\n" ++
  "  Fl_Tree_Item.cxx\n" ++
  "  Fl_Tree_Prefs.cxx\n" ++
  "  Fl_Valuator.cxx\n" ++
  "  Fl_Value_Input.cxx\n" ++
  "  Fl_Value_Output.cxx\n" ++
  "  Fl_Value_Slider.cxx\n" ++
  "  Fl_Widget.cxx\n" ++
  "  Fl_Widget_Surface.cxx\n" ++
  "  Fl_Window.cxx\n" ++
  "  Fl_Window_Driver.cxx\n" ++
  "  Fl_Window_fullscreen.cxx\n" ++
  "  Fl_Window_hotspot.cxx\n" ++
  "  Fl_Window_iconize.cxx\n" ++
  "  Fl_Wizard.cxx\n" ++
  "  Fl_XBM_Image.cxx\n" ++
  "  Fl_XPM_Image.cxx\n" ++
  "  Fl_abort.cxx\n" ++
  "  Fl_add_idle.cxx\n" ++
  "  Fl_arg.cxx\n" ++
  "  Fl_compose.cxx\n" ++
  "  Fl_display.cxx\n" ++
  "  Fl_get_system_colors.cxx\n" ++
  "  Fl_grab.cxx\n" ++
  "  Fl_lock.cxx\n" ++
  "  Fl_own_colormap.cxx\n" ++
  "  Fl_visual.cxx\n" ++
  "  filename_absolute.cxx\n" ++
  "  filename_expand.cxx\n" ++
  "  filename_ext.cxx\n" ++
  "  filename_isdir.cxx\n" ++
  "  filename_list.cxx\n" ++
  "  filename_match.cxx\n" ++
  "  filename_setext.cxx\n" ++
  "  fl_arc.cxx\n" ++
  "  fl_ask.cxx\n" ++
  "  fl_boxtype.cxx\n" ++
  "  fl_color.cxx\n" ++
  "  fl_cursor.cxx\n" ++
  "  fl_curve.cxx\n" ++
  "  fl_diamond_box.cxx\n" ++
  "  fl_draw.cxx\n" ++
  "  fl_draw_pixmap.cxx\n" ++
  "  fl_engraved_label.cxx\n" ++
  "  fl_file_dir.cxx\n" ++
  "  fl_font.cxx\n" ++
  "  fl_gleam.cxx\n" ++
  "  fl_gtk.cxx\n" ++
  "  fl_labeltype.cxx\n" ++
  "  fl_open_uri.cxx\n" ++
  "  fl_oval_box.cxx\n" ++
  "  fl_overlay.cxx\n" ++
  "  fl_overlay_visual.cxx\n" ++
  "  fl_plastic.cxx\n" ++
  "  fl_read_image.cxx\n" ++
  "  fl_rect.cxx\n" ++
  "  fl_round_box.cxx\n" ++
  "  fl_rounded_box.cxx\n" ++
  "  fl_set_font.cxx\n" ++
  "  fl_scroll_area.cxx\n" ++
  "  fl_shadow_box.cxx\n" ++
  "  fl_shortcut.cxx\n" ++
  "  fl_show_colormap.cxx\n" ++
  "  fl_symbols.cxx\n" ++
  "  fl_vertex.cxx\n" ++
  "  screen_xywh.cxx\n" ++
  "  fl_utf8.cxx\n" ++
  "  fl_encoding_latin1.cxx\n" ++
  "  fl_encoding_mac_roman.cxx\n" ++
  ")\n" ++
  "\n" ++
  "set (DRIVER_FILES\n" ++
  "  drivers/Android/Fl_Android_Application.cxx\n" ++
  "  drivers/Android/Fl_Android_System_Driver.cxx\n" ++
  "  drivers/Android/Fl_Android_Screen_Driver.cxx\n" ++
  "  drivers/Android/Fl_Android_Screen_Keyboard.cxx\n" ++
  "  drivers/Android/Fl_Android_Window_Driver.cxx\n" ++
  "  drivers/Android/Fl_Android_Image_Surface_Driver.cxx\n" ++
  "  drivers/Android/Fl_Android_Graphics_Driver.cxx\n" ++
  "  drivers/Android/Fl_Android_Graphics_Clipping.cxx\n" ++
  "  drivers/Android/Fl_Android_Graphics_Font.cxx\n" ++
  ")\n" ++
  "\n" ++
  "#source_group(\"Header Files\" FILES $\x7bHEADER_FILES\x7d)\n" ++
  "source_group(\"Driver Source Files\" FILES $\x7bDRIVER_FILES\x7d)\n" ++
  "#source_group(\"Driver Header Files\" FILES $\x7bDRIVER_HEADER_FILES\x7d)\n" ++
  "\n" ++
  "set (CFILES\n" ++
  "  flstring.c\n" ++
  "  numericsort.c\n" ++
  "  vsnprintf.c\n" ++
  "  xutf8/is_right2left.c\n" ++
  "  xutf8/is_spacing.c\n" ++
  "  xutf8/case.c\n" ++
  ")\n" ++
  "\n" ++
  "set (CPPFILES\n" ++
  "  $\x7bCPPFILES\x7d\n" ++
  "  $\x7bDRIVER_FILES\x7d\n" ++
  ")\n" ++
  "\n" ++
  "set (SHARED_FILES $\x7bCPPFILES\x7d $\x7bCFILES\x7d)\n" ++
  "set (STATIC_FILES $\x7bSHARED_FILES\x7d)\n" ++
  "\n" ++
  "add_definitions(-DFL_LIBRARY)\n" ++
  "\n" ++
  "list_transform_prepend(STATIC_FILES \"$\x7bFLTK_DIR\x7d/src/\")\n" ++
  "\n" ++
  "# now build app\x27s shared lib\n" ++
  "add_library( fltk STATIC\n" ++
  "  $\x7bSTATIC_FILES\x7d\n" ++
  ")\n" ++
  "\n" ++
  "set_target_properties( fltk\n" ++
  "    PROPERTIES\n" ++
  "    CLEAN_DIRECT_OUTPUT TRUE\n" ++
  "    COMPILE_DEFINITIONS \"FL_LIBRARY\"\n" ++
  ")\n" ++
  "\n" ++
  "target_include_directories(\n" ++
  "    fltk SYSTEM PRIVATE\n" ++
  "    $\x7bCMAKE_SYSROOT\x7d/usr/include/c++/v1/\n" ++
  "    $\x7bFLTK_DIR\x7d/\n" ++
  "    $\x7bFLTK_DIR\x7d/src/\n" ++
  "    $\x7bFLTK_IDE_DIR\x7d/\n" ++
  ")\n" ++
  "\n" ++
  "target_include_directories(\n" ++
  "    fltk PRIVATE\n" ++
  "    $\x7bFLTK_DIR\x7d/src/ )\n"

/-- Text passed for the file adjuster/build.gradle. -/
def text_adjuster_build_gradle : String :=
  "apply plugin: \x27com.android.application\x27\n" ++
  "android \x7b\n" ++
  "    compileSdkVersion 26\n" ++
  "    dependencies \x7b\n" ++
  "        implementation project(\x27:fltk\x27)\n" ++
  "    \x7d\n" ++
  "    defaultConfig \x7b\n" ++
  "        applicationId \x27org.fltk.adjuster\x27\n" ++
  "        minSdkVersion 14\n" ++
  "        targetSdkVersion 26\n" ++
  "        externalNativeBuild \x7b\n" ++
  "            cmake \x7b\n" ++
  "                arguments \x27-DANDROID_STL=c++_shared\x27\n" ++
  "            \x7d\n" ++
  "        \x7d\n" ++
  "    \x7d\n" ++
  "    buildTypes \x7b\n" ++
  "        release \x7b\n" ++
  "            minifyEnabled false\n" ++
  "        \x7d\n" ++
  "    \x7d\n" ++
  "    externalNativeBuild \x7b\n" ++
  "        cmake \x7b\n" ++
  "            path \x27src/main/cpp/CMakeLists.txt\x27\n" ++
  "        \x7d\n" ++
  "    \x7d\n" ++
  "\x7d\n"

/-- Text passed for the file adjuster/src/main/AndroidManifest.xml. -/
def text_adjuster_src_main_AndroidManifest_xml : String :=
  "<?xml version=\"1.0\" encoding=\"utf-8\"?>\n" ++
  "<manifest xmlns:android=\"http://schemas.android.com/apk/res/android\"\n" ++
  "          package=\"org.fltk.adjuster\"\n" ++
  "          android:versionCode=\"1\"\n" ++
  "          android:versionName=\"1.0\">\n" ++
  "  <application\n" ++
  "      android:allowBackup=\"false\"\n" ++
  "      android:fullBackupContent=\"false\"\n" ++
  "      android:icon=\"@mipmap/ic_launcher\"\n" ++
  "      android:label=\"@string/app_name\"\n" ++
  "      android:hasCode=\"false\">\n" ++
  "    <activity android:name=\"android.app.NativeActivity\"\n" ++
  "              android:label=\"@string/app_name\">\n" ++
  "      <meta-data android:name=\"android.app.lib_name\"\n" ++
  "                 android:value=\"adjuster\" />\n" ++
  "      <intent-filter>\n" ++
  "        <action android:name=\"android.intent.action.MAIN\" />\n" ++
  "        <category android:name=\"android.intent.category.LAUNCHER\" />\n" ++
  "      </intent-filter>\n" ++
  "    </activity>\n" ++
  "  </application>\n" ++
  "</manifest>\n"

/-- Text passed for the file adjuster/src/main/cpp/CMakeLists.txt. -/
def text_adjuster_src_main_cpp_CMakeLists_txt : String :=
  "cmake_minimum_required(VERSION 3.4.1)\n" ++
  "set(FLTK_DIR \"/Users/matt/dev/fltk-1.4.git\")\n" ++
  "set(FLTK_IDE_DIR \"../../../..\")\n" ++
  "set(CMAKE_CXX_FLAGS \"$\x7bCMAKE_CXX_FLAGS\x7d -std=c++11\")\n" ++
  "add_library(\n" ++
  "    adjuster SHARED\n" ++
  "    \"$\x7bFLTK_DIR\x7d/test/adjuster.cxx\"\n" ++
  ")\n" ++
  "target_include_directories(\n" ++
  "    adjuster SYSTEM PRIVATE\n" ++
  "    $\x7bFLTK_DIR\x7d/\n" ++
  "    $\x7bFLTK_IDE_DIR\x7d/\n" ++
  ")\n" ++
  "target_link_libraries(\n" ++
  "    adjuster\n" ++
  "    \"$\x7bFLTK_DIR\x7d/build/AndroidStudio/fltk/.cxx/cmake/$\x7bCMAKE_BUILD_TYPE\x7d/$\x7bANDROID_ABI\x7d/libfltk.a\"\n" ++
  "    android\n" ++
  "    log\n" ++
  "    m\n" ++
  ")\n"

/-- Text passed for the file adjuster/src/main/res/values/strings.xml. -/
def text_adjuster_src_main_res_values_strings_xml : String :=
  "<?xml version=\"1.0\" encoding=\"utf-8\"?>\n" ++
  "<resources>\n" ++
  "    <string name=\"app_name\">adjuster</string>\n" ++
  "</resources>\n"

/-- Function `createFile(dir, name, text)`; `filename` is a buffer of `FL_PATH_MAX`
bytes. -/
def createFile (sys : Fl_Filename) (w : Flink_World) (dir name text : String) :
    Option Flink_World := do
  let filename ← strcpy sys.FL_PATH_MAX dir
  let filename ← strcat sys.FL_PATH_MAX filename name
  let w := fl_make_path_for_file w filename
  let (w, f) := fl_fopen w filename "wb"
  let w := fwrite w text (strlen text) 1 f
  pure (fclose w f)

/-- Function `createFile(dir, name, data, size)`; `filename` is a buffer of `FL_PATH_MAX`
bytes. -/
def createFile_data (sys : Fl_Filename) (w : Flink_World) (dir name data : String)
    (size : Nat) : Option Flink_World := do
  let filename ← strcpy sys.FL_PATH_MAX dir
  let filename ← strcat sys.FL_PATH_MAX filename name
  let w := fl_make_path_for_file w filename
  let (w, f) := fl_fopen w filename "wb"
  let w := fwrite w data size 1 f
  pure (fclose w f)

/-- Function `createProjectFolder()`; `projectDir` is a buffer of `FL_PATH_MAX` bytes.
The fifteen `createFile` calls run in the order of the source, each on the state the
call before it left.  The result is `none` when a name does not fit into its buffer. -/
def createProjectFolder (sys : Fl_Filename) (icons : Flink_Icons) (ui : Flink_UI)
    (w : Flink_World) : Option Flink_World := do
  let w := fl_chdir sys w ui.wSourceFolder
  let projectDir := fl_filename_absolute sys w sys.FL_PATH_MAX ui.wProjectFolder
  let n := strlen projectDir
  let projectDir ←
    if c_index projectDir n ≠ '/' then strcat sys.FL_PATH_MAX projectDir "/"
    else some projectDir
  let w := fl_make_path w projectDir
  (some w)
    >>= (fun w => createFile sys w projectDir "FL/abi-version.h" text_FL_abi_version_h)
    >>= (fun w => createFile sys w projectDir "build.gradle" text_build_gradle)
    >>= (fun w => createFile sys w projectDir "settings.gradle" text_settings_gradle)
    >>= (fun w => createFile sys w projectDir "config.h" text_config_h)
    >>= (fun w => createFile sys w projectDir "fltk/build.gradle" text_fltk_build_gradle)
    >>= (fun w => createFile sys w projectDir "fltk/src/main/AndroidManifest.xml"
          text_fltk_src_main_AndroidManifest_xml)
    >>= (fun w => createFile sys w projectDir "fltk/src/main/cpp/CMakeLists.txt"
          text_fltk_src_main_cpp_CMakeLists_txt)
    >>= (fun w => createFile sys w projectDir "adjuster/build.gradle"
          text_adjuster_build_gradle)
    >>= (fun w => createFile sys w projectDir "adjuster/src/main/AndroidManifest.xml"
          text_adjuster_src_main_AndroidManifest_xml)
    >>= (fun w => createFile sys w projectDir "adjuster/src/main/cpp/CMakeLists.txt"
          text_adjuster_src_main_cpp_CMakeLists_txt)
    >>= (fun w => createFile_data sys w projectDir
          "adjuster/src/main/res/mipmap-mdpi/ic_launcher.png"
          icons.mdpi_ic_launcher (sizeof icons.mdpi_ic_launcher))
    >>= (fun w => createFile_data sys w projectDir
          "adjuster/src/main/res/mipmap-hdpi/ic_launcher.png"
          icons.hdpi_ic_launcher (sizeof icons.hdpi_ic_launcher))
    >>= (fun w => createFile_data sys w projectDir
          "adjuster/src/main/res/mipmap-xhdpi/ic_launcher.png"
          icons.xhdpi_ic_launcher (sizeof icons.xhdpi_ic_launcher))
    >>= (fun w => createFile_data sys w projectDir
          "adjuster/src/main/res/mipmap-xxhdpi/ic_launcher.png"
          icons.xxhdpi_ic_launcher (sizeof icons.xxhdpi_ic_launcher))
    >>= (fun w => createFile sys w projectDir "adjuster/src/main/res/values/strings.xml"
          text_adjuster_src_main_res_values_strings_xml)

/-- The value the local buffer `projectDir` of `createProjectFolder` holds once the guard
of line 94 has run: the directory in front of every file name; `none` when the slash
does not fit into the buffer. -/
def createProjectFolder_projectDir (sys : Fl_Filename) (ui : Flink_UI) (w : Flink_World) :
    Option String :=
  let w := fl_chdir sys w ui.wSourceFolder
  let projectDir := fl_filename_absolute sys w sys.FL_PATH_MAX ui.wProjectFolder
  let n := strlen projectDir
  if c_index projectDir n ≠ '/' then strcat sys.FL_PATH_MAX projectDir "/"
  else some projectDir

/-! ## The scaffold, after the specification -/

/-- The fixed list of relative paths. -/
def spec_scaffold_paths : List String :=
  ["FL/abi-version.h", "build.gradle", "settings.gradle", "config.h", "fltk/build.gradle",
   "fltk/src/main/AndroidManifest.xml", "fltk/src/main/cpp/CMakeLists.txt",
   "adjuster/build.gradle", "adjuster/src/main/AndroidManifest.xml",
   "adjuster/src/main/cpp/CMakeLists.txt",
   "adjuster/src/main/res/mipmap-mdpi/ic_launcher.png",
   "adjuster/src/main/res/mipmap-hdpi/ic_launcher.png",
   "adjuster/src/main/res/mipmap-xhdpi/ic_launcher.png",
   "adjuster/src/main/res/mipmap-xxhdpi/ic_launcher.png",
   "adjuster/src/main/res/values/strings.xml"]

/-- The fixed list of pairs of a relative path and the content passed for it. -/
def spec_scaffold_templates (icons : Flink_Icons) : List (String × String) :=
  [("FL/abi-version.h", text_FL_abi_version_h),
   ("build.gradle", text_build_gradle),
   ("settings.gradle", text_settings_gradle),
   ("config.h", text_config_h),
   ("fltk/build.gradle", text_fltk_build_gradle),
   ("fltk/src/main/AndroidManifest.xml", text_fltk_src_main_AndroidManifest_xml),
   ("fltk/src/main/cpp/CMakeLists.txt", text_fltk_src_main_cpp_CMakeLists_txt),
   ("adjuster/build.gradle", text_adjuster_build_gradle),
   ("adjuster/src/main/AndroidManifest.xml", text_adjuster_src_main_AndroidManifest_xml),
   ("adjuster/src/main/cpp/CMakeLists.txt", text_adjuster_src_main_cpp_CMakeLists_txt),
   ("adjuster/src/main/res/mipmap-mdpi/ic_launcher.png", icons.mdpi_ic_launcher),
   ("adjuster/src/main/res/mipmap-hdpi/ic_launcher.png", icons.hdpi_ic_launcher),
   ("adjuster/src/main/res/mipmap-xhdpi/ic_launcher.png", icons.xhdpi_ic_launcher),
   ("adjuster/src/main/res/mipmap-xxhdpi/ic_launcher.png", icons.xxhdpi_ic_launcher),
   ("adjuster/src/main/res/values/strings.xml",
     text_adjuster_src_main_res_values_strings_xml)]

/-- One step of the scaffold: the parent directory of the file exists afterwards and the
file holds exactly the content, whatever it held before. -/
def spec_write_template (root : String) (w : Flink_World) (t : String × String) :
    Flink_World :=
  { w with
    dirs := fun q => w.dirs q || decide (q ∈ path_ancestors (root ++ t.1))
    files := fun q => if q = root ++ t.1 then some t.2 else w.files q }

/-- The scaffold under a destination root: the root exists afterwards and every pair of
the list is written, first pair first. -/
def spec_scaffold (root : String) (templates : List (String × String)) (w : Flink_World) :
    Flink_World :=
  templates.foldl (spec_write_template root) (fl_make_path w root)

/-! ## Sample objects of the scaffolder -/

/-- Path buffers of 2048 bytes and path functions for absolute names: `chdir` moves to its
argument, `absolute` keeps a name that starts with a slash and puts the current
directory in front of any other. -/
def sample_filename : Fl_Filename :=
  { FL_PATH_MAX := 2048
    chdir := fun _ _ d => d
    absolute := fun cwd f => if f.data.head? = some '/' then f else cwd ++ "/" ++ f }

/-- Four short byte sequences in the place of the icons. -/
def sample_icons : Flink_Icons :=
  { mdpi_ic_launcher := "m", hdpi_ic_launcher := "h", xhdpi_ic_launcher := "xh",
    xxhdpi_ic_launcher := "xxh" }

/-- The values `main` puts into the widgets, with the source root /src/fltk. -/
def sample_ui : Flink_UI :=
  { wSourceFolder := "/src/fltk", wProjectFolder := "build/AndroidStudio",
    wDeleteExistingProject := 1 }

/-- A process in the directory /home with no file and no directory. -/
def sample_world : Flink_World :=
  { cwd := "/home", dirs := fun _ => false, files := fun _ => none }

/-! ## Line caps -/

/-- Claim C1 (evaluation of the code): with the square-cap flag FL_CAP_SQUARE as the style,
`line_style` leaves the cap "round", not "square", whatever the width and dash pattern,
and the next `line` call writes `stroke-linecap:round`. -/
theorem line_style_square_flag_stores_round (d : SVG_Graphics_Driver) (width : Int)
    (dashes : Option String) (x1 y1 x2 y2 : Int) :
    (d.line_style FL_CAP_SQUARE width dashes).linecap_ = "round" ∧
    (d.line_style FL_CAP_SQUARE width dashes).linecap_ ≠ "square" ∧
    ((d.line_style FL_CAP_SQUARE width dashes).line x1 y1 x2 y2).out_ =
      d.out_ ++ "<line x1=\"" ++ fmt_d x1 ++ "\" y1=\"" ++ fmt_d y1 ++ "\" x2=\"" ++ fmt_d x2 ++
        "\" y2=\"" ++ fmt_d y2 ++ "\" style=\"stroke:rgb(" ++ fmt_u d.red_ ++ "," ++
        fmt_u d.green_ ++ "," ++ fmt_u d.blue_ ++ ");stroke-width:" ++
        fmt_d (if width = 0 then 1 else width) ++ ";stroke-linecap:round\" />\n" := by
  have h : (d.line_style FL_CAP_SQUARE width dashes).linecap_ = "round" := rfl
  refine ⟨h, ?_, ?_⟩
  · rw [h]
    decide
  · simp only [String.append_assoc]
    rfl

/-- The cap `line_style` stores, for every style: "round" when the round-cap bit is set
and "butt" otherwise. -/
theorem line_style_linecap (d : SVG_Graphics_Driver) (style width : Int)
    (dashes : Option String) :
    (d.line_style style width dashes).linecap_ =
      if Int.land style FL_CAP_ROUND ≠ 0 then "round" else "butt" := by
  unfold SVG_Graphics_Driver.line_style
  split_ifs <;> rfl

/-- The width `line_style` stores. -/
theorem line_style_width (d : SVG_Graphics_Driver) (style width : Int)
    (dashes : Option String) :
    (d.line_style style width dashes).width_ = if width = 0 then 1 else width := by
  unfold SVG_Graphics_Driver.line_style
  split_ifs <;> rfl

/-! ## Fonts -/

/-- The family `font_` stores, in terms of the truncating quotient. -/
theorem font__family_tdiv (d : SVG_Graphics_Driver) (ft s : Int) :
    (d.font_ ft s).family_ =
      if Int.tdiv ft 4 = 0 then "Helvetica"
      else if Int.tdiv ft 4 = 1 then "Courier" else "Times" := by
  unfold SVG_Graphics_Driver.font_
  simp only []
  split_ifs <;> rfl

/-- The weight attribute `font_` stores, in terms of the truncating remainder. -/
theorem font__bold_tmod (d : SVG_Graphics_Driver) (ft s : Int) :
    (d.font_ ft s).bold_ =
      if Int.tmod ft 4 = 1 ∨ Int.tmod ft 4 = 3 then " font-weight=\"bold\"" else "" := by
  unfold SVG_Graphics_Driver.font_
  simp only []
  split_ifs <;> simp_all

/-- The style attribute `font_` stores, in terms of the truncating quotient and
remainder. -/
theorem font__style_tmod (d : SVG_Graphics_Driver) (ft s : Int) :
    (d.font_ ft s).style_ =
      if 2 ≤ Int.tmod ft 4 then
        (if Int.tdiv ft 4 = 2 then " font-style=\"italic\"" else " font-style=\"oblique\"")
      else "" := by
  unfold SVG_Graphics_Driver.font_
  simp only []
  split_ifs <;> simp_all

/-- Claim C2 (as stated, at font index 14, where 14 % 4 = 2): the family selected is
"Times" and the font-style attribute is present with the value "oblique", so it is not
"italic" for the serif family. -/
theorem font_style_times_14_not_italic :
    (sample_driver.font_ 14 12).family_ = "Times" ∧
    (sample_driver.font_ 14 12).style_ = " font-style=\"oblique\"" ∧
    ¬ ((sample_driver.font_ 14 12).style_ =
        if (sample_driver.font_ 14 12).family_ = "Times" then " font-style=\"italic\""
        else " font-style=\"oblique\"") := by
  decide

/-- Claim C2 (amended): for every font index f >= 0 and size s, after `font_ f s` the
weight attribute is font-weight="bold" exactly when f % 4 is 1 or 3 and empty otherwise;
a font-style attribute is present exactly when f % 4 is 2 or 3, and its value is
"italic" when the quotient f / 4 is 2, that is for 8 <= f <= 11, and "oblique" for every
other index. -/
theorem font_weight_and_style (d : SVG_Graphics_Driver) (f s : Int) (hf : 0 ≤ f) :
    (d.font_ f s).bold_ =
      (if f % 4 = 1 ∨ f % 4 = 3 then " font-weight=\"bold\"" else "") ∧
    (d.font_ f s).style_ =
      (if f % 4 = 2 ∨ f % 4 = 3 then
        (if 8 ≤ f ∧ f ≤ 11 then " font-style=\"italic\"" else " font-style=\"oblique\"")
       else "") := by
  have hm : Int.tmod f 4 = f % 4 := Int.tmod_eq_emod hf (by decide)
  have hq : Int.tdiv f 4 = f / 4 := Int.tdiv_eq_ediv hf (by decide)
  rw [font__bold_tmod, font__style_tmod, hm, hq]
  refine ⟨rfl, ?_⟩
  have c1 : (2 ≤ f % 4) ↔ (f % 4 = 2 ∨ f % 4 = 3) := by omega
  have c2 : (f / 4 = 2) ↔ (8 ≤ f ∧ f ≤ 11) := by omega
  simp only [c1, c2]

/-- Claim C2 (amended), applied at font indices 10 and 14. -/
theorem font_weight_and_style_witness :
    (0 : Int) ≤ 10 ∧ (0 : Int) ≤ 14 ∧
    (sample_driver.font_ 10 12).style_ = " font-style=\"italic\"" ∧
    (sample_driver.font_ 14 12).style_ = " font-style=\"oblique\"" ∧
    (sample_driver.font_ 14 12).bold_ = "" :=
  ⟨by decide, by decide,
   (font_weight_and_style sample_driver 10 12 (by decide)).2.trans (by decide),
   (font_weight_and_style sample_driver 14 12 (by decide)).2.trans (by decide),
   (font_weight_and_style sample_driver 14 12 (by decide)).1.trans (by decide)⟩

/-- Claim C3: for every font index f >= 0 and size s, after `font_ f s` the family is
"Helvetica" for 0 <= f <= 3, "Courier" for 4 <= f <= 7 and "Times" for f >= 8, the bucket
being the quotient f / 4; the family depends neither on the size nor on the state before
the call. -/
theorem font_family (d e : SVG_Graphics_Driver) (f s t : Int) (hf : 0 ≤ f) :
    (d.font_ f s).family_ =
      (if f ≤ 3 then "Helvetica" else if f ≤ 7 then "Courier" else "Times") ∧
    (d.font_ f s).family_ =
      (if f / 4 = 0 then "Helvetica" else if f / 4 = 1 then "Courier" else "Times") ∧
    (e.font_ f t).family_ = (d.font_ f s).family_ := by
  have hq : Int.tdiv f 4 = f / 4 := Int.tdiv_eq_ediv hf (by decide)
  rw [font__family_tdiv, font__family_tdiv, hq]
  refine ⟨?_, rfl, rfl⟩
  have c0 : (f / 4 = 0) ↔ f ≤ 3 := by omega
  have c1 : (f / 4 = 1) ↔ (¬ f ≤ 3 ∧ f ≤ 7) := by omega
  by_cases h3 : f ≤ 3
  · simp [c0, h3]
  · by_cases h7 : f ≤ 7 <;> simp [c0, c1, h3, h7]

/-- Claim C3, applied at font indices 2, 5 and 9. -/
theorem font_family_witness :
    (0 : Int) ≤ 2 ∧ (0 : Int) ≤ 5 ∧ (0 : Int) ≤ 9 ∧
    (sample_driver.font_ 2 12).family_ = "Helvetica" ∧
    (sample_driver.font_ 5 12).family_ = "Courier" ∧
    (sample_driver.font_ 9 12).family_ = "Times" ∧
    (sample_driver.font_ 9 36).family_ = (sample_driver.font_ 9 12).family_ :=
  ⟨by decide, by decide, by decide,
   (font_family sample_driver sample_driver 2 12 12 (by decide)).1.trans (by decide),
   (font_family sample_driver sample_driver 5 12 12 (by decide)).1.trans (by decide),
   (font_family sample_driver sample_driver 9 12 12 (by decide)).1.trans (by decide),
   (font_family sample_driver sample_driver 9 12 36 (by decide)).2.2⟩

/-! ## Decimal renderings -/

/-- A decimal digit character carries its digit and is not the minus sign. -/
theorem digitChar_value : ∀ k : Nat, k < 10 →
    (Nat.digitChar k).toNat - 48 = k ∧ Nat.digitChar k ≠ '-' := by
  decide

/-- The digits the runtime produces for `n` in base ten read back as `n`. -/
theorem toDigitsCore_value (fuel : Nat) : ∀ (n : Nat) (ds : List Char), n < fuel →
    ∃ pre : List Char, Nat.toDigitsCore 10 fuel n ds = pre ++ ds ∧
      (∀ a, digits_value a pre = a * 10 ^ pre.length + n) ∧
      (∀ c ∈ pre, c ≠ '-') ∧ pre ≠ [] := by
  induction fuel with
  | zero => intro n ds h; omega
  | succ fuel ih =>
      intro n ds h
      obtain ⟨hv, hm⟩ := digitChar_value (n % 10) (Nat.mod_lt n (by decide))
      by_cases h0 : n / 10 = 0
      · refine ⟨[Nat.digitChar (n % 10)], ?_, ?_, ?_, by simp⟩
        · simp [Nat.toDigitsCore, h0]
        · intro a
          simp only [digits_value, List.foldl_cons, List.foldl_nil, hv, List.length_singleton]
          omega
        · intro c hc
          rw [List.mem_singleton] at hc
          rw [hc]
          exact hm
      · obtain ⟨pre, e, hval, hne, -⟩ :=
          ih (n / 10) (Nat.digitChar (n % 10) :: ds) (by omega)
        refine ⟨pre ++ [Nat.digitChar (n % 10)], ?_, ?_, ?_, by simp⟩
        · simp only [Nat.toDigitsCore, h0, if_false, e, List.append_assoc, List.singleton_append]
        · intro a
          have hp := hval a
          simp only [digits_value] at hp
          simp only [digits_value, List.foldl_append, List.foldl_cons, List.foldl_nil, hp, hv,
            List.length_append, List.length_singleton, pow_succ]
          have := Nat.div_add_mod n 10
          nlinarith [this]
        · intro c hc
          rcases List.mem_append.mp hc with h1 | h1
          · exact hne c h1
          · rw [List.mem_singleton] at h1
            rw [h1]
            exact hm

/-- The text of `%u` is a run of digits, not empty, whose value is the argument. -/
theorem fmt_u_value (n : Nat) :
    digits_value 0 (fmt_u n).data = n ∧ (∀ c ∈ (fmt_u n).data, c ≠ '-') ∧
    (fmt_u n).data ≠ [] := by
  obtain ⟨pre, e, hval, hne, hnil⟩ := toDigitsCore_value (n + 1) n [] (Nat.lt_succ_self n)
  have hd : (fmt_u n).data = pre := by
    show (Nat.toDigits 10 n) = pre
    rw [Nat.toDigits, e, List.append_nil]
  rw [hd]
  refine ⟨?_, hne, hnil⟩
  rw [hval 0]
  omega

/-- The text of `%d` reads back as the argument: the rendering is exact. -/
theorem read_decimal_fmt_d (v : Int) : read_decimal (fmt_d v) = v := by
  cases v with
  | ofNat m =>
      obtain ⟨hv, hne, hnil⟩ := fmt_u_value m
      have hd : (fmt_d (Int.ofNat m)).data = (fmt_u m).data := rfl
      unfold read_decimal
      rw [hd]
      cases hcs : (fmt_u m).data with
      | nil => exact absurd hcs hnil
      | cons c cs =>
          have hc : c ≠ '-' := hne c (by rw [hcs]; exact List.mem_cons_self c cs)
          rw [hcs] at hv
          split
          · rename_i heq
            simp only [List.cons.injEq] at heq
            exact absurd heq.1 hc
          · rw [hv]
            rfl
  | negSucc m =>
      obtain ⟨hv, -, -⟩ := fmt_u_value (m + 1)
      have hd : (fmt_d (Int.negSucc m)).data = '-' :: (fmt_u (m + 1)).data := rfl
      unfold read_decimal
      rw [hd]
      simp only [hv]
      rfl

/-! ## Markup written by the drawing calls -/

/-- Text appended by `rect`. -/
theorem rect_out (d : SVG_Graphics_Driver) (x y w h : Int) :
    (d.rect x y w h).out_ =
      d.out_ ++ "<rect x=\"" ++ fmt_d x ++ "\" y=\"" ++ fmt_d y ++ "\" width=\"" ++ fmt_d w ++
        "\" height=\"" ++ fmt_d h ++ "\" fill=\"none\" stroke=\"rgb(" ++ fmt_u d.red_ ++ "," ++
        fmt_u d.green_ ++ "," ++ fmt_u d.blue_ ++ ")\" stroke-width=\"" ++ fmt_d d.width_ ++
        "\"/>\n" := by
  simp only [String.append_assoc]
  rfl

/-- Text appended by `rectf`. -/
theorem rectf_out (d : SVG_Graphics_Driver) (x y w h : Int) :
    (d.rectf x y w h).out_ =
      d.out_ ++ "<rect x=\"" ++ fmt_d x ++ "\" y=\"" ++ fmt_d y ++ "\" width=\"" ++ fmt_d w ++
        "\" height=\"" ++ fmt_d h ++ "\" fill=\"rgb(" ++ fmt_u d.red_ ++ "," ++
        fmt_u d.green_ ++ "," ++ fmt_u d.blue_ ++ ")\" />\n" := by
  simp only [String.append_assoc]
  rfl

/-- Text appended by `line`. -/
theorem line_out (d : SVG_Graphics_Driver) (x1 y1 x2 y2 : Int) :
    (d.line x1 y1 x2 y2).out_ =
      d.out_ ++ "<line x1=\"" ++ fmt_d x1 ++ "\" y1=\"" ++ fmt_d y1 ++ "\" x2=\"" ++ fmt_d x2 ++
        "\" y2=\"" ++ fmt_d y2 ++ "\" style=\"stroke:rgb(" ++ fmt_u d.red_ ++ "," ++
        fmt_u d.green_ ++ "," ++ fmt_u d.blue_ ++ ");stroke-width:" ++ fmt_d d.width_ ++
        ";stroke-linecap:" ++ d.linecap_ ++ "\" />\n" := by
  simp only [String.append_assoc]
  rfl

/-- Text appended by `draw`, for every length argument. -/
theorem draw_out (p : Fl_Display_Driver) (d : SVG_Graphics_Driver) (str : String)
    (n x y : Int) :
    (d.draw p str n x y).out_ =
      d.out_ ++ "<text x=\"" ++ fmt_d x ++ "\" y=\"" ++ fmt_d y ++ "\" font-family=\"" ++
        d.family_ ++ "\"" ++ d.bold_ ++ d.style_ ++ " font-size=\"" ++ fmt_d d.base.size_ ++
        "\" xml:space=\"preserve\"  fill=\"rgb(" ++ fmt_u d.red_ ++ "," ++ fmt_u d.green_ ++
        "," ++ fmt_u d.blue_ ++ ")\" textLength=\"" ++ fmt_d (trunc_int (p.width str n)) ++
        "\">" ++ fmt_prec_s n str ++ "</text>\n" := by
  simp only [String.append_assoc]
  rfl

/-- The calls `line_style` and `color` write nothing and touch only their own fields. -/
theorem line_style_frame (d : SVG_Graphics_Driver) (style width : Int)
    (dashes : Option String) :
    (d.line_style style width dashes).out_ = d.out_ ∧
    (d.line_style style width dashes).red_ = d.red_ ∧
    (d.line_style style width dashes).green_ = d.green_ ∧
    (d.line_style style width dashes).blue_ = d.blue_ := by
  unfold SVG_Graphics_Driver.line_style
  split_ifs <;> exact ⟨rfl, rfl, rfl, rfl⟩

/-! ## Stroke width -/

/-- Claim C4: after `line_style s 0 dashes` the stored stroke width is 1, the next `line`
writes stroke-width:1 and the next `rect` writes stroke-width="1"; for every width
wd other than 0, `line_style s wd dashes` stores wd unchanged and the next `line` and
`rect` write exactly wd. -/
theorem line_style_stroke_width (d : SVG_Graphics_Driver) (s : Int) (dashes : Option String)
    (x1 y1 x2 y2 x y w h : Int) :
    ((d.line_style s 0 dashes).width_ = 1 ∧
     ((d.line_style s 0 dashes).line x1 y1 x2 y2).out_ =
       d.out_ ++ "<line x1=\"" ++ fmt_d x1 ++ "\" y1=\"" ++ fmt_d y1 ++ "\" x2=\"" ++
         fmt_d x2 ++ "\" y2=\"" ++ fmt_d y2 ++ "\" style=\"stroke:rgb(" ++ fmt_u d.red_ ++
         "," ++ fmt_u d.green_ ++ "," ++ fmt_u d.blue_ ++ ");stroke-width:1;stroke-linecap:" ++
         (d.line_style s 0 dashes).linecap_ ++ "\" />\n" ∧
     ((d.line_style s 0 dashes).rect x y w h).out_ =
       d.out_ ++ "<rect x=\"" ++ fmt_d x ++ "\" y=\"" ++ fmt_d y ++ "\" width=\"" ++
         fmt_d w ++ "\" height=\"" ++ fmt_d h ++ "\" fill=\"none\" stroke=\"rgb(" ++
         fmt_u d.red_ ++ "," ++ fmt_u d.green_ ++ "," ++ fmt_u d.blue_ ++
         ")\" stroke-width=\"1\"/>\n") ∧
    (∀ wd : Int, wd ≠ 0 →
     (d.line_style s wd dashes).width_ = wd ∧
     ((d.line_style s wd dashes).line x1 y1 x2 y2).out_ =
       d.out_ ++ "<line x1=\"" ++ fmt_d x1 ++ "\" y1=\"" ++ fmt_d y1 ++ "\" x2=\"" ++
         fmt_d x2 ++ "\" y2=\"" ++ fmt_d y2 ++ "\" style=\"stroke:rgb(" ++ fmt_u d.red_ ++
         "," ++ fmt_u d.green_ ++ "," ++ fmt_u d.blue_ ++ ");stroke-width:" ++ fmt_d wd ++
         ";stroke-linecap:" ++ (d.line_style s wd dashes).linecap_ ++ "\" />\n" ∧
     ((d.line_style s wd dashes).rect x y w h).out_ =
       d.out_ ++ "<rect x=\"" ++ fmt_d x ++ "\" y=\"" ++ fmt_d y ++ "\" width=\"" ++
         fmt_d w ++ "\" height=\"" ++ fmt_d h ++ "\" fill=\"none\" stroke=\"rgb(" ++
         fmt_u d.red_ ++ "," ++ fmt_u d.green_ ++ "," ++ fmt_u d.blue_ ++
         ")\" stroke-width=\"" ++ fmt_d wd ++ "\"/>\n") := by
  have one : fmt_d 1 = "1" := by decide
  constructor
  · obtain ⟨ho, hr, hg, hb⟩ := line_style_frame d s 0 dashes
    have hw : (d.line_style s 0 dashes).width_ = 1 := by
      rw [line_style_width]
      rfl
    refine ⟨hw, ?_, ?_⟩
    · rw [line_out, ho, hr, hg, hb, hw, one]
      simp only [String.append_assoc]
      rfl
    · rw [rect_out, ho, hr, hg, hb, hw, one]
      simp only [String.append_assoc]
      rfl
  · intro wd hwd
    obtain ⟨ho, hr, hg, hb⟩ := line_style_frame d s wd dashes
    have hw : (d.line_style s wd dashes).width_ = wd := by
      rw [line_style_width, if_neg hwd]
    refine ⟨hw, ?_, ?_⟩
    · rw [line_out, ho, hr, hg, hb, hw]
    · rw [rect_out, ho, hr, hg, hb, hw]

/-- Claim C4, applied at widths 0 and 3 on a fresh driver. -/
theorem line_style_stroke_width_witness :
    (3 : Int) ≠ 0 ∧
    (sample_driver.line_style 0 0 none).width_ = 1 ∧
    (sample_driver.line_style 0 3 none).width_ = 3 ∧
    ((sample_driver.line_style 0 3 none).rect 1 2 30 40).out_ =
      "<rect x=\"1\" y=\"2\" width=\"30\" height=\"40\" fill=\"none\" " ++
      "stroke=\"rgb(0,0,0)\" stroke-width=\"3\"/>\n" :=
  ⟨by decide,
   (line_style_stroke_width sample_driver 0 none 0 0 1 1 1 2 30 40).1.1,
   ((line_style_stroke_width sample_driver 0 none 0 0 1 1 1 2 30 40).2 3 (by decide)).1,
   ((line_style_stroke_width sample_driver 0 none 0 0 1 1 1 2 30 40).2 3 (by decide)).2.2.trans
     (by decide)⟩

/-! ## Rectangles -/

/-- Claim C5: for all integers x, y, w, h (in particular for w, h >= 0) and every pen state,
`rect` appends exactly the stroked rectangle element with the decimal renderings of the
four arguments, the pen color as stroke and the stroke width, and `rectf` appends
exactly the filled rectangle element with the pen color as fill and no stroke attribute;
the text `rectf` appends is the same whatever the stroke width and the cap are, and each
numeric attribute reads back as the argument it renders. -/
theorem rect_rectf_markup (d : SVG_Graphics_Driver) (x y w h : Int) (wd : Int)
    (cap : String) :
    (d.rect x y w h).out_ =
      d.out_ ++ "<rect x=\"" ++ fmt_d x ++ "\" y=\"" ++ fmt_d y ++ "\" width=\"" ++ fmt_d w ++
        "\" height=\"" ++ fmt_d h ++ "\" fill=\"none\" stroke=\"rgb(" ++ fmt_u d.red_ ++ "," ++
        fmt_u d.green_ ++ "," ++ fmt_u d.blue_ ++ ")\" stroke-width=\"" ++ fmt_d d.width_ ++
        "\"/>\n" ∧
    (d.rectf x y w h).out_ =
      d.out_ ++ "<rect x=\"" ++ fmt_d x ++ "\" y=\"" ++ fmt_d y ++ "\" width=\"" ++ fmt_d w ++
        "\" height=\"" ++ fmt_d h ++ "\" fill=\"rgb(" ++ fmt_u d.red_ ++ "," ++
        fmt_u d.green_ ++ "," ++ fmt_u d.blue_ ++ ")\" />\n" ∧
    (SVG_Graphics_Driver.rectf { d with width_ := wd, linecap_ := cap } x y w h).out_ =
      (d.rectf x y w h).out_ ∧
    (read_decimal (fmt_d x) = x ∧ read_decimal (fmt_d y) = y ∧
      read_decimal (fmt_d w) = w ∧ read_decimal (fmt_d h) = h) := by
  refine ⟨rect_out d x y w h, rectf_out d x y w h, ?_,
    read_decimal_fmt_d x, read_decimal_fmt_d y, read_decimal_fmt_d w, read_decimal_fmt_d h⟩
  rw [rectf_out, rectf_out]

/-! ## Text -/

/-- Unary minus on an `int` is the mathematical negation unless the operand is the least
`int`. -/
theorem neg32_eq_neg (a : Int) (h1 : -2 ^ 31 < a) (h2 : a < 2 ^ 31) : neg32 a = -a := by
  unfold neg32 wrap32
  omega

/-- The truncating quotient of numerator and denominator rounds toward zero: down for a
value that is not negative, up for a negative one. -/
theorem tdiv_num_den (q : ℚ) :
    Int.tdiv q.num (q.den : Int) = if 0 ≤ q then ⌊q⌋ else ⌈q⌉ := by
  split_ifs with h
  · have hn : 0 ≤ q.num := Rat.num_nonneg.mpr h
    rw [Int.tdiv_eq_ediv hn (by positivity), Rat.floor_def]
  · have hn : q.num < 0 := by
      rw [← not_le, Rat.num_nonneg]
      exact h
    have hc : ⌈q⌉ = -⌊-q⌋ := by
      rw [Int.floor_neg, neg_neg]
    rw [hc, Rat.floor_def, Rat.num_neg_eq_neg_num, Rat.den_neg_eq_den]
    obtain ⟨m, hm⟩ : ∃ m : Int, q.num = -m ∧ 0 < m := ⟨-q.num, by omega, by omega⟩
    rw [hm.1, Int.neg_tdiv, neg_neg, Int.tdiv_eq_ediv (le_of_lt hm.2) (by positivity)]

/-- For a value whose truncation is an `int`, the cast `(int)` rounds toward zero: down
for a value that is not negative, up for a negative one. -/
theorem trunc_int_eq (q : ℚ) (h1 : -2 ^ 31 - 1 < q) (h2 : q < 2 ^ 31) :
    trunc_int q = if 0 ≤ q then ⌊q⌋ else ⌈q⌉ := by
  unfold trunc_int
  simp only []
  rw [tdiv_num_den]
  have hr : -2 ^ 31 ≤ (if 0 ≤ q then ⌊q⌋ else ⌈q⌉) ∧
      (if 0 ≤ q then ⌊q⌋ else ⌈q⌉) < 2 ^ 31 := by
    split_ifs with h
    · constructor
      · have : (0 : Int) ≤ ⌊q⌋ := Int.floor_nonneg.mpr h
        omega
      · rw [Int.floor_lt]
        exact_mod_cast h2
    · have hneg : q < 0 := not_le.mp h
      constructor
      · have : (-2 ^ 31 - 1 : Int) < ⌈q⌉ := by
          rw [Int.lt_ceil]
          exact_mod_cast h1
        omega
      · have : ⌈q⌉ ≤ 0 := by
          rw [Int.ceil_le]
          exact_mod_cast le_of_lt hneg
        omega
  rw [if_pos hr]

/-- Beyond the range of `int` the cast gives the least `int`. -/
theorem trunc_int_out_of_range (q : ℚ) (h : 2 ^ 31 ≤ q) : trunc_int q = -2 ^ 31 := by
  unfold trunc_int
  simp only []
  rw [tdiv_num_den, if_pos (le_trans (by positivity) h)]
  have : (2 ^ 31 : Int) ≤ ⌊q⌋ := by
    rw [Int.le_floor]
    exact_mod_cast h
  rw [if_neg (by omega)]

/-- Text appended by `draw_angle`, for every angle. -/
theorem draw_angle_out (p : Fl_Display_Driver) (d : SVG_Graphics_Driver) (angle : Int)
    (str : String) (n x y : Int) :
    (d.draw_angle p angle str n x y).out_ =
      d.out_ ++ "<g transform=\"translate(" ++ fmt_d x ++ "," ++ fmt_d y ++ ") rotate(" ++
        fmt_d (neg32 angle) ++ ")\">" ++
        ("<text x=\"0\" y=\"0\" font-family=\"" ++
        d.family_ ++ "\"" ++ d.bold_ ++ d.style_ ++ " font-size=\"" ++ fmt_d d.base.size_ ++
        "\" xml:space=\"preserve\"  fill=\"rgb(" ++ fmt_u d.red_ ++ "," ++ fmt_u d.green_ ++
        "," ++ fmt_u d.blue_ ++ ")\" textLength=\"" ++ fmt_d (trunc_int (p.width str n)) ++
        "\">" ++ fmt_prec_s n str ++ "</text>\n") ++ "</g>\n" := by
  have hg : fprintf d.out_ "<g transform=\"translate(%d,%d) rotate(%d)\">"
      [.int x, .int y, .int (neg32 angle)] =
      d.out_ ++ "<g transform=\"translate(" ++ fmt_d x ++ "," ++ fmt_d y ++ ") rotate(" ++
        fmt_d (neg32 angle) ++ ")\">" := by
    simp only [String.append_assoc]
    rfl
  have z : fmt_d 0 = "0" := by decide
  unfold SVG_Graphics_Driver.draw_angle
  simp only [fputs]
  rw [draw_out]
  simp only [hg, z, String.append_assoc]
  rfl

/-- Claim C6: for every angle a whose negation is an `int`, every string, length and
position (x, y), `draw_angle` appends the opening tag of a group whose transform is
translate(x,y) rotate(-a), then exactly the text t that the unrotated `draw str n 0 0`
appends in the same state, a text element positioned at 0,0, then the closing tag of
the group and a newline. -/
theorem draw_angle_markup (p : Fl_Display_Driver) (d : SVG_Graphics_Driver) (a : Int)
    (str : String) (n x y : Int) (h1 : -2 ^ 31 < a) (h2 : a < 2 ^ 31) :
    ∃ t : String,
      (d.draw p str n 0 0).out_ = d.out_ ++ t ∧
      (d.draw_angle p a str n x y).out_ =
        d.out_ ++ "<g transform=\"translate(" ++ fmt_d x ++ "," ++ fmt_d y ++ ") rotate(" ++
          fmt_d (-a) ++ ")\">" ++ t ++ "</g>\n" ∧
      t = "<text x=\"0\" y=\"0\" font-family=\"" ++
        d.family_ ++ "\"" ++ d.bold_ ++ d.style_ ++ " font-size=\"" ++ fmt_d d.base.size_ ++
        "\" xml:space=\"preserve\"  fill=\"rgb(" ++ fmt_u d.red_ ++ "," ++ fmt_u d.green_ ++
        "," ++ fmt_u d.blue_ ++ ")\" textLength=\"" ++ fmt_d (trunc_int (p.width str n)) ++
        "\">" ++ fmt_prec_s n str ++ "</text>\n" := by
  have z : fmt_d 0 = "0" := by decide
  refine ⟨_, ?_, ?_, rfl⟩
  · rw [draw_out, z]
    simp only [String.append_assoc]
    rfl
  · rw [draw_angle_out, neg32_eq_neg a h1 h2]

/-- Claim C6, applied at angle 90 on a fresh driver. -/
theorem draw_angle_markup_witness :
    (-2 ^ 31 : Int) < 90 ∧ (90 : Int) < 2 ^ 31 ∧
    (sample_driver.draw_angle sample_display 90 "Hi" 2 5 50).out_ =
      "<g transform=\"translate(5,50) rotate(-90)\">" ++
      "<text x=\"0\" y=\"0\" font-family=\"\" font-size=\"0\" xml:space=\"preserve\"  " ++
      "fill=\"rgb(0,0,0)\" textLength=\"14\">Hi</text>\n" ++ "</g>\n" :=
  ⟨by decide, by decide, by
    obtain ⟨t, -, h, ht⟩ :=
      draw_angle_markup sample_display sample_driver 90 "Hi" 2 5 50 (by decide) (by decide)
    rw [h, ht]
    have hq : sample_display.width "Hi" 2 = 14 := by
      simp only [Fl_Display_Driver.width, sample_display]
      norm_num
    have hw : trunc_int (sample_display.width "Hi" 2) = 14 := by
      rw [hq, trunc_int_eq 14 (by norm_num) (by norm_num)]
      norm_num
    rw [hw]
    decide⟩

/-- Text of `%.*s` when the precision lies within the string: exactly the first `n`
bytes. -/
theorem fmt_prec_s_within (n : Int) (str : String) (h0 : 0 ≤ n) (hn : n ≤ str.length) :
    fmt_prec_s n str = String.mk (str.data.take n.toNat) ∧
    ((fmt_prec_s n str).length : Int) = n ∧
    (fmt_prec_s n str).data <+: str.data := by
  have e : fmt_prec_s n str = String.mk (str.data.take n.toNat) := by
    unfold fmt_prec_s
    rw [if_neg (by omega)]
  refine ⟨e, ?_, ?_⟩
  · rw [e]
    have hl : str.length = str.data.length := rfl
    simp only [String.length, List.length_take]
    omega
  · rw [e]
    exact List.take_prefix _ _

/-- Claim C8: for every driver state, string str, length n with 0 <= n <= length of str and
position (x, y), when the width the on-screen renderer reports for (str, n) truncates to
an `int`, `draw` appends exactly one text element: x and y are the position,
font-family, the weight and style attributes, font-size and the fill color are the
current state, textLength is that width truncated to an integer, and the content is
exactly the first n bytes of str, unescaped, followed by the closing tag and a newline. -/
theorem draw_markup (p : Fl_Display_Driver) (d : SVG_Graphics_Driver) (str : String)
    (n x y : Int) (h0 : 0 ≤ n) (hn : n ≤ str.length)
    (hlo : -2 ^ 31 - 1 < p.width str n) (hhi : p.width str n < 2 ^ 31) :
    (d.draw p str n x y).out_ =
      d.out_ ++ "<text x=\"" ++ fmt_d x ++ "\" y=\"" ++ fmt_d y ++ "\" font-family=\"" ++
        d.family_ ++ "\"" ++ d.bold_ ++ d.style_ ++ " font-size=\"" ++ fmt_d d.base.size_ ++
        "\" xml:space=\"preserve\"  fill=\"rgb(" ++ fmt_u d.red_ ++ "," ++ fmt_u d.green_ ++
        "," ++ fmt_u d.blue_ ++ ")\" textLength=\"" ++
        fmt_d (if 0 ≤ p.width str n then ⌊p.width str n⌋ else ⌈p.width str n⌉) ++
        "\">" ++ String.mk (str.data.take n.toNat) ++ "</text>\n" ∧
    ((String.mk (str.data.take n.toNat)).length : Int) = n ∧
    SVG_Graphics_Driver.width p str n = p.width str n := by
  obtain ⟨e, hl, -⟩ := fmt_prec_s_within n str h0 hn
  refine ⟨?_, ?_, rfl⟩
  · rw [draw_out, e, trunc_int_eq _ hlo hhi]
  · rw [← e]
    exact hl

/-- Claim C8, applied to the first 3 bytes of a string with reserved characters. -/
theorem draw_markup_witness :
    (0 : Int) ≤ 3 ∧ (3 : Int) ≤ ("a<b&c".length : Int) ∧
    ((sample_driver.font_ 3 12).draw sample_display "a<b&c" 3 5 50).out_ =
      "<text x=\"5\" y=\"50\" font-family=\"Helvetica\" font-weight=\"bold\" " ++
      "font-style=\"oblique\" font-size=\"12\" xml:space=\"preserve\"  " ++
      "fill=\"rgb(0,0,0)\" textLength=\"21\">a<b</text>\n" :=
  ⟨by decide, by decide, by
    have hw : sample_display.width "a<b&c" 3 = 21 := by
      simp only [Fl_Display_Driver.width, sample_display]
      norm_num
    rw [(draw_markup sample_display (sample_driver.font_ 3 12) "a<b&c" 3 5 50 (by decide)
      (by decide) (by rw [hw]; norm_num) (by rw [hw]; norm_num)).1]
    rw [hw]
    have hf : (if (0 : ℚ) ≤ 21 then ⌊(21 : ℚ)⌋ else ⌈(21 : ℚ)⌉) = 21 := by
      norm_num
    rw [hf]
    decide⟩

/-! ## Session -/

/-- Claim C7: constructing a surface of size (W, H) on an empty stream, issuing no call
and destroying it leaves exactly the XML and DOCTYPE header, the root element carrying
W and H as pixel width and height and as the extent of the viewBox, and the closing tag
of the root, with nothing in between; `width` and `height` return W and H. -/
theorem surface_round_trip (b : Fl_Graphics_Driver) (W H : Int) :
    (SVG_File_Surface.ctor b W H "").dtor =
      "<?xml version=\"1.0\" encoding=\"utf-8\" standalone=\"no\"?>\n" ++
      "<!DOCTYPE svg PUBLIC \"-//W3C//DTD SVG 1.1//EN\" \n" ++
      "\"http://www.w3.org/Graphics/SVG/1.1/DTD/svg11.dtd\">\n" ++
      "<svg width=\"" ++ fmt_d W ++ "px\" height=\"" ++ fmt_d H ++ "px\" viewBox=\"0 0 " ++
      fmt_d W ++ " " ++ fmt_d H ++ "\"\n" ++
      "xmlns=\"http://www.w3.org/2000/svg\" version=\"1.1\">\n" ++
      "</svg>\n" ∧
    (SVG_File_Surface.ctor b W H "").width = W ∧
    (SVG_File_Surface.ctor b W H "").height = H := by
  refine ⟨?_, rfl, rfl⟩
  have hh : fprintf ""
      ("<?xml version=\"1.0\" encoding=\"utf-8\" standalone=\"no\"?>\n" ++
       "<!DOCTYPE svg PUBLIC \"-//W3C//DTD SVG 1.1//EN\" \n" ++
       "\"http://www.w3.org/Graphics/SVG/1.1/DTD/svg11.dtd\">\n" ++
       "<svg width=\"%dpx\" height=\"%dpx\" viewBox=\"0 0 %d %d\"\n" ++
       "xmlns=\"http://www.w3.org/2000/svg\" version=\"1.1\">\n")
      [.int W, .int H, .int W, .int H] =
      "<?xml version=\"1.0\" encoding=\"utf-8\" standalone=\"no\"?>\n" ++
      "<!DOCTYPE svg PUBLIC \"-//W3C//DTD SVG 1.1//EN\" \n" ++
      "\"http://www.w3.org/Graphics/SVG/1.1/DTD/svg11.dtd\">\n" ++
      "<svg width=\"" ++ fmt_d W ++ "px\" height=\"" ++ fmt_d H ++ "px\" viewBox=\"0 0 " ++
      fmt_d W ++ " " ++ fmt_d H ++ "\"\n" ++
      "xmlns=\"http://www.w3.org/2000/svg\" version=\"1.1\">\n" := by
    simp only [String.append_assoc]
    rfl
  show fflush (fputs "</svg>\n" (fprintf "" _ _)) = _
  rw [hh]
  rfl

/-! ## Pen state across calls -/

/-- The call `font_` writes nothing and leaves the pen state alone. -/
theorem font__frame (d : SVG_Graphics_Driver) (ft s : Int) :
    (d.font_ ft s).out_ = d.out_ ∧
    (d.font_ ft s).red_ = d.red_ ∧
    (d.font_ ft s).green_ = d.green_ ∧
    (d.font_ ft s).blue_ = d.blue_ ∧
    (d.font_ ft s).width_ = d.width_ ∧
    (d.font_ ft s).linecap_ = d.linecap_ := by
  unfold SVG_Graphics_Driver.font_
  simp only []
  split_ifs <;> exact ⟨rfl, rfl, rfl, rfl, rfl, rfl⟩

/-- A call that is not a color setter leaves the pen color alone. -/
theorem apply_keeps_color (c : DriverCall) (w : Fl_Display_Driver × SVG_Graphics_Driver)
    (h : c.sets_color = false) :
    (c.apply w).2.red_ = w.2.red_ ∧ (c.apply w).2.green_ = w.2.green_ ∧
    (c.apply w).2.blue_ = w.2.blue_ := by
  cases c with
  | color r g b => simp [DriverCall.sets_color] at h
  | color_index k => simp [DriverCall.sets_color] at h
  | line_style style width dashes =>
      obtain ⟨-, hr, hg, hb⟩ := line_style_frame w.2 style width dashes
      exact ⟨hr, hg, hb⟩
  | font_ ft s =>
      obtain ⟨-, hr, hg, hb, -, -⟩ := font__frame w.2 ft s
      exact ⟨hr, hg, hb⟩
  | font ft s =>
      obtain ⟨-, hr, hg, hb, -, -⟩ := font__frame w.2 ft s
      exact ⟨hr, hg, hb⟩
  | _ => exact ⟨rfl, rfl, rfl⟩

/-- A call other than `line_style` leaves the stroke width and the cap alone. -/
theorem apply_keeps_line_style (c : DriverCall)
    (w : Fl_Display_Driver × SVG_Graphics_Driver) (h : c.sets_line_style = false) :
    (c.apply w).2.width_ = w.2.width_ ∧ (c.apply w).2.linecap_ = w.2.linecap_ := by
  cases c with
  | line_style style width dashes => simp [DriverCall.sets_line_style] at h
  | font_ ft s =>
      obtain ⟨-, -, -, -, hw, hc⟩ := font__frame w.2 ft s
      exact ⟨hw, hc⟩
  | font ft s =>
      obtain ⟨-, -, -, -, hw, hc⟩ := font__frame w.2 ft s
      exact ⟨hw, hc⟩
  | _ => exact ⟨rfl, rfl⟩

/-- A sequence of calls without a color setter leaves the pen color alone. -/
theorem run_calls_keeps_color (calls : List DriverCall)
    (w : Fl_Display_Driver × SVG_Graphics_Driver)
    (h : ∀ c ∈ calls, c.sets_color = false) :
    (run_calls calls w).2.red_ = w.2.red_ ∧ (run_calls calls w).2.green_ = w.2.green_ ∧
    (run_calls calls w).2.blue_ = w.2.blue_ := by
  induction calls generalizing w with
  | nil => exact ⟨rfl, rfl, rfl⟩
  | cons c cs ih =>
      have hc := apply_keeps_color c w (h c (List.mem_cons_self c cs))
      have hs := ih (c.apply w) (fun k hk => h k (List.mem_cons_of_mem c hk))
      simp only [run_calls, List.foldl_cons] at hs ⊢
      exact ⟨hs.1.trans hc.1, hs.2.1.trans hc.2.1, hs.2.2.trans hc.2.2⟩

/-- A sequence of calls without `line_style` leaves the stroke width and the cap alone. -/
theorem run_calls_keeps_line_style (calls : List DriverCall)
    (w : Fl_Display_Driver × SVG_Graphics_Driver)
    (h : ∀ c ∈ calls, c.sets_line_style = false) :
    (run_calls calls w).2.width_ = w.2.width_ ∧
    (run_calls calls w).2.linecap_ = w.2.linecap_ := by
  induction calls generalizing w with
  | nil => exact ⟨rfl, rfl⟩
  | cons c cs ih =>
      have hc := apply_keeps_line_style c w (h c (List.mem_cons_self c cs))
      have hs := ih (c.apply w) (fun k hk => h k (List.mem_cons_of_mem c hk))
      simp only [run_calls, List.foldl_cons] at hs ⊢
      exact ⟨hs.1.trans hc.1, hs.2.trans hc.2⟩

/-- Running a sequence that ends the first part with the call `c`. -/
theorem run_calls_append_cons (pre post : List DriverCall) (c : DriverCall)
    (w : Fl_Display_Driver × SVG_Graphics_Driver) :
    run_calls (pre ++ c :: post) w = run_calls post (c.apply (run_calls pre w)) := by
  simp only [run_calls, List.foldl_append, List.foldl_cons]

/-- The call `color` stores the three channels and leaves the stroke alone. -/
theorem color_stores (d : SVG_Graphics_Driver) (r g b : Nat) :
    (d.color r g b).red_ = r % 256 ∧ (d.color r g b).green_ = g % 256 ∧
    (d.color r g b).blue_ = b % 256 ∧ (d.color r g b).out_ = d.out_ :=
  ⟨rfl, rfl, rfl, rfl⟩

/-! ## Lines -/

/-- Claim C9: `line` appends exactly one line element with the four coordinates and the
style stroke:rgb(r,g,b);stroke-width:W;stroke-linecap:C of the current pen state; on a
freshly constructed driver the element carries rgb(0,0,0), width 1 and cap "butt"; and
after any sequence of calls, (r,g,b) is the triple of the last `color r g b` call and W
and C are the width and the cap stored by the last `line_style` call. -/
theorem line_markup (d : SVG_Graphics_Driver) (b : Fl_Graphics_Driver) (f : FILE)
    (x1 y1 x2 y2 : Int) :
    (d.line x1 y1 x2 y2).out_ =
      d.out_ ++ "<line x1=\"" ++ fmt_d x1 ++ "\" y1=\"" ++ fmt_d y1 ++ "\" x2=\"" ++ fmt_d x2 ++
        "\" y2=\"" ++ fmt_d y2 ++ "\" style=\"stroke:rgb(" ++ fmt_u d.red_ ++ "," ++
        fmt_u d.green_ ++ "," ++ fmt_u d.blue_ ++ ");stroke-width:" ++ fmt_d d.width_ ++
        ";stroke-linecap:" ++ d.linecap_ ++ "\" />\n" ∧
    ((SVG_Graphics_Driver.ctor b f).line x1 y1 x2 y2).out_ =
      f ++ "<line x1=\"" ++ fmt_d x1 ++ "\" y1=\"" ++ fmt_d y1 ++ "\" x2=\"" ++ fmt_d x2 ++
        "\" y2=\"" ++ fmt_d y2 ++
        "\" style=\"stroke:rgb(0,0,0);stroke-width:1;stroke-linecap:butt\" />\n" ∧
    (∀ (p : Fl_Display_Driver) (calls pre post pre2 post2 : List DriverCall) (r g bl : Nat)
      (s wd : Int) (dashes : Option String),
      r < 256 → g < 256 → bl < 256 →
      calls = pre ++ DriverCall.color r g bl :: post →
      (∀ c ∈ post, c.sets_color = false) →
      calls = pre2 ++ DriverCall.line_style s wd dashes :: post2 →
      (∀ c ∈ post2, c.sets_line_style = false) →
      ((run_calls calls (p, d)).2.line x1 y1 x2 y2).out_ =
        (run_calls calls (p, d)).2.out_ ++ "<line x1=\"" ++ fmt_d x1 ++ "\" y1=\"" ++
          fmt_d y1 ++ "\" x2=\"" ++ fmt_d x2 ++ "\" y2=\"" ++ fmt_d y2 ++
          "\" style=\"stroke:rgb(" ++ fmt_u r ++ "," ++ fmt_u g ++ "," ++ fmt_u bl ++
          ");stroke-width:" ++ fmt_d (if wd = 0 then 1 else wd) ++ ";stroke-linecap:" ++
          ((run_calls pre2 (p, d)).2.line_style s wd dashes).linecap_ ++ "\" />\n") := by
  refine ⟨line_out d x1 y1 x2 y2, ?_, ?_⟩
  · rw [line_out]
    have one : fmt_d 1 = "1" := by decide
    have zero : fmt_u 0 = "0" := by decide
    simp only [SVG_Graphics_Driver.ctor, one, zero, String.append_assoc]
    rfl
  · intro p calls pre post pre2 post2 r g bl s wd dashes hr hg hb hc hpost hl hpost2
    have kc := run_calls_keeps_color post
      ((DriverCall.color r g bl).apply (run_calls pre (p, d))) hpost
    rw [← run_calls_append_cons, ← hc] at kc
    have kl := run_calls_keeps_line_style post2
      ((DriverCall.line_style s wd dashes).apply (run_calls pre2 (p, d))) hpost2
    rw [← run_calls_append_cons, ← hl] at kl
    obtain ⟨c1, c2, c3, -⟩ := color_stores (run_calls pre (p, d)).2 r g bl
    have e1 : (run_calls calls (p, d)).2.red_ = r := by
      rw [kc.1]
      exact c1.trans (Nat.mod_eq_of_lt hr)
    have e2 : (run_calls calls (p, d)).2.green_ = g := by
      rw [kc.2.1]
      exact c2.trans (Nat.mod_eq_of_lt hg)
    have e3 : (run_calls calls (p, d)).2.blue_ = bl := by
      rw [kc.2.2]
      exact c3.trans (Nat.mod_eq_of_lt hb)
    have e4 : (run_calls calls (p, d)).2.width_ = if wd = 0 then 1 else wd := by
      rw [kl.1]
      exact line_style_width _ s wd dashes
    have e5 : (run_calls calls (p, d)).2.linecap_ =
        ((run_calls pre2 (p, d)).2.line_style s wd dashes).linecap_ := kl.2
    rw [line_out, e1, e2, e3, e4, e5]

/-- Claim C9, applied to the sequence color, line_style, rectf, font_ on a fresh driver. -/
theorem line_markup_witness :
    (10 : Nat) < 256 ∧ (20 : Nat) < 256 ∧ (30 : Nat) < 256 ∧
    ((run_calls [DriverCall.color 10 20 30, DriverCall.line_style 0 0 none,
        DriverCall.rectf 0 0 4 4, DriverCall.font_ 1 12]
        (sample_display, sample_driver)).2.line 1 2 3 4).out_ =
      "<rect x=\"0\" y=\"0\" width=\"4\" height=\"4\" fill=\"rgb(10,20,30)\" />\n" ++
      "<line x1=\"1\" y1=\"2\" x2=\"3\" y2=\"4\" " ++
      "style=\"stroke:rgb(10,20,30);stroke-width:1;stroke-linecap:butt\" />\n" :=
  ⟨by decide, by decide, by decide,
   ((line_markup sample_driver sample_base "" 1 2 3 4).2.2 sample_display
      [DriverCall.color 10 20 30, DriverCall.line_style 0 0 none,
        DriverCall.rectf 0 0 4 4, DriverCall.font_ 1 12]
      [] [DriverCall.line_style 0 0 none, DriverCall.rectf 0 0 4 4, DriverCall.font_ 1 12]
      [DriverCall.color 10 20 30] [DriverCall.rectf 0 0 4 4, DriverCall.font_ 1 12]
      10 20 30 0 0 none (by decide) (by decide) (by decide) rfl (by decide) rfl
      (by decide)).trans (by decide)⟩

/-! ## Append-only output -/

/-- Text appended by one call, whatever the call. -/
theorem apply_out (p : Fl_Display_Driver) (d : SVG_Graphics_Driver) (c : DriverCall) :
    (c.apply (p, d)).2.out_ = d.out_ ++ spec_appended p d c := by
  cases c with
  | rect x y w h => exact (rect_out d x y w h).trans (by simp only [spec_appended,
      spec_rect_element, String.append_assoc])
  | rectf x y w h => exact (rectf_out d x y w h).trans (by simp only [spec_appended,
      spec_rectf_element, String.append_assoc])
  | line x1 y1 x2 y2 => exact (line_out d x1 y1 x2 y2).trans (by simp only [spec_appended,
      spec_line_element, String.append_assoc])
  | draw str n x y => exact (draw_out p d str n x y).trans (by simp only [spec_appended,
      spec_text_element, String.append_assoc])
  | draw_float str n fx fy =>
      exact (draw_out p d str n (trunc_int fx) (trunc_int fy)).trans (by
        simp only [spec_appended, spec_text_element, String.append_assoc])
  | draw_angle angle str n x y =>
      have z : fmt_d 0 = "0" := by decide
      exact (draw_angle_out p d angle str n x y).trans (by
        simp only [spec_appended, spec_text_element, spec_group_element, z,
          String.append_assoc]
        rfl)
  | color r g b => exact (String.append_empty d.out_).symm
  | color_index k => exact (String.append_empty d.out_).symm
  | line_style style width dashes =>
      exact (line_style_frame d style width dashes).1.trans (String.append_empty d.out_).symm
  | font_ ft s => exact (font__frame d ft s).1.trans (String.append_empty d.out_).symm
  | font ft s => exact (font__frame d ft s).1.trans (String.append_empty d.out_).symm

/-- Claim C10: the output is append-only.  For every driver state and every call the text
afterwards is the text before followed by a suffix: one element for `rect`, `rectf`,
`line` and the unrotated `draw` calls, one group element around one text element for
`draw_angle`, and nothing for the setters `color`, `line_style` and `font_`; hence after
any sequence of calls the earlier text is still there, unchanged, as the beginning. -/
theorem output_append_only (p : Fl_Display_Driver) (d : SVG_Graphics_Driver) :
    (∀ c : DriverCall, (c.apply (p, d)).2.out_ = d.out_ ++ spec_appended p d c) ∧
    (∀ r g b : Nat, (d.color r g b).out_ = d.out_) ∧
    (∀ (style width : Int) (dashes : Option String),
      (d.line_style style width dashes).out_ = d.out_) ∧
    (∀ ft s : Int, (d.font_ ft s).out_ = d.out_) ∧
    (∀ calls : List DriverCall,
      ∃ suffix : String, (run_calls calls (p, d)).2.out_ = d.out_ ++ suffix) ∧
    (∀ (c : DriverCall) (calls : List DriverCall),
      ∃ suffix : String,
        (run_calls (c :: calls) (p, d)).2.out_ = d.out_ ++ spec_appended p d c ++ suffix) := by
  have run : ∀ (calls : List DriverCall) (w : Fl_Display_Driver × SVG_Graphics_Driver),
      ∃ suffix : String, (run_calls calls w).2.out_ = w.2.out_ ++ suffix := by
    intro calls
    induction calls with
    | nil => exact fun w => ⟨"", (String.append_empty _).symm⟩
    | cons c cs ih =>
        intro w
        obtain ⟨t, ht⟩ := ih (c.apply w)
        refine ⟨spec_appended w.1 w.2 c ++ t, ?_⟩
        have hc := apply_out w.1 w.2 c
        simp only [run_calls, List.foldl_cons] at ht ⊢
        rw [ht, hc, String.append_assoc]
  refine ⟨apply_out p d, fun r g b => rfl,
    fun style width dashes => (line_style_frame d style width dashes).1,
    fun ft s => (font__frame d ft s).1, fun calls => run calls (p, d), ?_⟩
  intro c calls
  obtain ⟨t, ht⟩ := run calls (c.apply (p, d))
  refine ⟨t, ?_⟩
  simp only [run_calls, List.foldl_cons] at ht ⊢
  rw [ht, apply_out]

/-! ## Pen and font state invariant -/

/-- The call `line_style` leaves the font attributes alone. -/
theorem line_style_keeps_font (d : SVG_Graphics_Driver) (style width : Int)
    (dashes : Option String) :
    (d.line_style style width dashes).bold_ = d.bold_ ∧
    (d.line_style style width dashes).style_ = d.style_ := by
  unfold SVG_Graphics_Driver.line_style
  split_ifs <;> exact ⟨rfl, rfl⟩

/-- The state a constructor leaves is inside the value domains. -/
theorem ctor_domains (b : Fl_Graphics_Driver) (f : FILE) :
    spec_pen_font_domains (SVG_Graphics_Driver.ctor b f) := by
  refine ⟨?_, Or.inl rfl, ⟨?_, ?_, ?_⟩, Or.inl rfl, Or.inl rfl⟩
  · show (1 : Int) ≠ 0
    decide
  · exact Nat.zero_le 255
  · exact Nat.zero_le 255
  · exact Nat.zero_le 255

/-- The call `font_` stores font attributes inside the value domains and leaves the pen
alone. -/
theorem font__domains (d : SVG_Graphics_Driver) (ft s : Int)
    (h : spec_pen_font_domains d) : spec_pen_font_domains (d.font_ ft s) := by
  obtain ⟨hw, hc, ⟨hr, hg, hb⟩, -, -⟩ := h
  obtain ⟨-, er, eg, eb, ew, ec⟩ := font__frame d ft s
  refine ⟨?_, ?_, ⟨?_, ?_, ?_⟩, ?_, ?_⟩
  · rw [ew]
    exact hw
  · rw [ec]
    exact hc
  · rw [er]
    exact hr
  · rw [eg]
    exact hg
  · rw [eb]
    exact hb
  · rw [font__bold_tmod]
    split_ifs
    · exact Or.inr rfl
    · exact Or.inl rfl
  · rw [font__style_tmod]
    split_ifs
    · exact Or.inr (Or.inl rfl)
    · exact Or.inr (Or.inr rfl)
    · exact Or.inl rfl

/-- Every call keeps the state inside the value domains. -/
theorem apply_domains (c : DriverCall) (w : Fl_Display_Driver × SVG_Graphics_Driver)
    (h : spec_pen_font_domains w.2) : spec_pen_font_domains (c.apply w).2 := by
  cases c with
  | color r g b =>
      obtain ⟨hw, hc, -, hb, hs⟩ := h
      refine ⟨hw, hc, ⟨?_, ?_, ?_⟩, hb, hs⟩
      · show r % 256 ≤ 255
        omega
      · show g % 256 ≤ 255
        omega
      · show b % 256 ≤ 255
        omega
  | color_index k =>
      obtain ⟨hw, hc, -, hb, hs⟩ := h
      refine ⟨hw, hc, ⟨?_, ?_, ?_⟩, hb, hs⟩
      · show (w.1.get_color k).1 % 256 ≤ 255
        omega
      · show (w.1.get_color k).2.1 % 256 ≤ 255
        omega
      · show (w.1.get_color k).2.2 % 256 ≤ 255
        omega
  | line_style style width dashes =>
      obtain ⟨-, -, ⟨hr, hg, hb⟩, hbo, hs⟩ := h
      obtain ⟨-, er, eg, eb⟩ := line_style_frame w.2 style width dashes
      obtain ⟨ebo, es⟩ := line_style_keeps_font w.2 style width dashes
      refine ⟨?_, ?_, ⟨?_, ?_, ?_⟩, ?_, ?_⟩
      · show (w.2.line_style style width dashes).width_ ≠ 0
        rw [line_style_width]
        split_ifs with h0
        · decide
        · exact h0
      · have hl := line_style_linecap w.2 style width dashes
        by_cases hq : Int.land style FL_CAP_ROUND ≠ 0
        · rw [if_pos hq] at hl
          exact Or.inr (Or.inl hl)
        · rw [if_neg hq] at hl
          exact Or.inl hl
      · exact er.symm ▸ hr
      · exact eg.symm ▸ hg
      · exact eb.symm ▸ hb
      · exact ebo.symm ▸ hbo
      · exact es.symm ▸ hs
  | font_ ft s => exact font__domains w.2 ft s h
  | font ft s => exact font__domains w.2 ft s h
  | _ => exact h

/-- Every sequence of calls keeps the state inside the value domains. -/
theorem run_calls_domains (calls : List DriverCall)
    (w : Fl_Display_Driver × SVG_Graphics_Driver) (h : spec_pen_font_domains w.2) :
    spec_pen_font_domains (run_calls calls w).2 := by
  induction calls generalizing w with
  | nil => exact h
  | cons c cs ih => exact ih (c.apply w) (apply_domains c w h)

/-- Claim C14: every driver state reached from construction by a finite sequence of
calls has a stroke width other than 0, a cap among "butt", "round", "square", color
channels in 0..255, a weight attribute that is empty or font-weight="bold" and a style
attribute that is empty, font-style="italic" or font-style="oblique"; hence the element
a drawing call emits in such a state carries values from these domains only. -/
theorem pen_font_state_invariant (p : Fl_Display_Driver) (b : Fl_Graphics_Driver) (f : FILE)
    (calls : List DriverCall) :
    spec_pen_font_domains (run_calls calls (p, SVG_Graphics_Driver.ctor b f)).2 ∧
    (∀ c : DriverCall, ∃ (r g bl : Nat) (sw : Int) (cap family bold style : String) (size : Int),
      sw ≠ 0 ∧ (cap = "butt" ∨ cap = "round" ∨ cap = "square") ∧
      (r ≤ 255 ∧ g ≤ 255 ∧ bl ≤ 255) ∧
      (bold = "" ∨ bold = " font-weight=\"bold\"") ∧
      (style = "" ∨ style = " font-style=\"italic\"" ∨ style = " font-style=\"oblique\"") ∧
      (c.apply (run_calls calls (p, SVG_Graphics_Driver.ctor b f))).2.out_ =
        (run_calls calls (p, SVG_Graphics_Driver.ctor b f)).2.out_ ++
        (match c with
          | .rect x y w h => spec_rect_element r g bl sw x y w h
          | .rectf x y w h => spec_rectf_element r g bl x y w h
          | .line x1 y1 x2 y2 => spec_line_element r g bl sw cap x1 y1 x2 y2
          | .draw str n x y =>
              spec_text_element family bold style size r g bl
                (trunc_int ((run_calls calls (p, SVG_Graphics_Driver.ctor b f)).1.width str n))
                (fmt_prec_s n str) x y
          | .draw_float str n fx fy =>
              spec_text_element family bold style size r g bl
                (trunc_int ((run_calls calls (p, SVG_Graphics_Driver.ctor b f)).1.width str n))
                (fmt_prec_s n str) (trunc_int fx) (trunc_int fy)
          | .draw_angle angle str n x y =>
              spec_group_element x y (neg32 angle)
                (spec_text_element family bold style size r g bl
                  (trunc_int
                    ((run_calls calls (p, SVG_Graphics_Driver.ctor b f)).1.width str n))
                  (fmt_prec_s n str) 0 0)
          | _ => "")) := by
  have inv := run_calls_domains calls (p, SVG_Graphics_Driver.ctor b f) (ctor_domains b f)
  refine ⟨inv, ?_⟩
  intro c
  obtain ⟨hw, hc, hrgb, hb, hs⟩ := inv
  generalize run_calls calls (p, SVG_Graphics_Driver.ctor b f) = w at hw hc hrgb hb hs ⊢
  refine ⟨w.2.red_, w.2.green_, w.2.blue_, w.2.width_, w.2.linecap_, w.2.family_, w.2.bold_,
    w.2.style_, w.2.base.size_, hw, hc, hrgb, hb, hs, ?_⟩
  have ho := apply_out w.1 w.2 c
  cases c <;> exact ho

/-! ## Scaffolder: the destination root -/

/-- The byte at the length of a C string is the terminating NUL. -/
theorem c_index_strlen (s : String) : c_index s (strlen s) = Char.ofNat 0 := by
  unfold c_index strlen
  have h : s.length = s.data.length := rfl
  rw [h, List.getD_eq_getElem?_getD, List.getElem?_append_right (le_refl _)]
  simp

/-- The guard of line 94 always holds, so the slash is always appended; the result exists
when the path with the slash fits into the buffer. -/
theorem projectDir_eq (sys : Fl_Filename) (ui : Flink_UI) (w : Flink_World)
    (hfit : (fl_filename_absolute sys (fl_chdir sys w ui.wSourceFolder) sys.FL_PATH_MAX
      ui.wProjectFolder ++ "/").length < sys.FL_PATH_MAX) :
    createProjectFolder_projectDir sys ui w =
      some (fl_filename_absolute sys (fl_chdir sys w ui.wSourceFolder) sys.FL_PATH_MAX
        ui.wProjectFolder ++ "/") := by
  unfold createProjectFolder_projectDir
  simp only [c_index_strlen]
  rw [if_pos (by decide)]
  unfold strcat strlen
  rw [if_pos hfit]

/-- When the path with the slash does not fit into the buffer, `projectDir` has no
value. -/
theorem projectDir_overflow (sys : Fl_Filename) (ui : Flink_UI) (w : Flink_World)
    (hover : sys.FL_PATH_MAX ≤ (fl_filename_absolute sys (fl_chdir sys w ui.wSourceFolder)
      sys.FL_PATH_MAX ui.wProjectFolder ++ "/").length) :
    createProjectFolder_projectDir sys ui w = none := by
  unfold createProjectFolder_projectDir
  simp only [c_index_strlen]
  rw [if_pos (by decide)]
  unfold strcat strlen
  rw [if_neg (by omega)]

/-- Bytes taken up to the length of a string are the string. -/
theorem take_all_bytes (s : String) : String.mk (s.data.take (s.length * 1)) = s := by
  have h : s.length = s.data.length := rfl
  rw [Nat.mul_one, h, List.take_length]

/-- A directory fits into a buffer that its files fit into. -/
theorem dir_fits (cap : Nat) (dir name : String) (h : (dir ++ name).length < cap) :
    dir.length < cap := by
  rw [String.length_append] at h
  omega

/-- Writing a text with `createFile` is one step of the scaffold, when the name fits into
the buffer. -/
theorem createFile_eq (sys : Fl_Filename) (w : Flink_World) (dir name text : String)
    (hfit : (dir ++ name).length < sys.FL_PATH_MAX) :
    createFile sys w dir name text = some (spec_write_template dir w (name, text)) := by
  have t := take_all_bytes text
  have hd := dir_fits _ _ _ hfit
  unfold createFile spec_write_template
  simp only [strcpy, strcat, strlen, if_pos hd, if_pos hfit, Option.bind_eq_bind,
    Option.some_bind, Option.pure_def, fl_make_path_for_file, fl_fopen, fwrite, fclose]
  rw [if_pos (by decide)]
  simp only [t, Option.some.injEq]
  congr 1
  funext q
  by_cases hq : q = dir ++ name
  · simp [hq]
  · simp [hq]

/-- When the name does not fit into the buffer, `createFile` has no result. -/
theorem createFile_overflow (sys : Fl_Filename) (w : Flink_World) (dir name text : String)
    (hover : sys.FL_PATH_MAX ≤ (dir ++ name).length) :
    createFile sys w dir name text = none := by
  unfold createFile
  simp only [strcpy, strcat, strlen, Option.bind_eq_bind]
  by_cases hd : dir.length < sys.FL_PATH_MAX
  · rw [if_pos hd, Option.some_bind, if_neg (by omega)]
    rfl
  · rw [if_neg hd]
    rfl

/-- Writing a whole array with the binary `createFile` is one step of the scaffold, when
the name fits into the buffer. -/
theorem createFile_data_eq (sys : Fl_Filename) (w : Flink_World) (dir name data : String)
    (hfit : (dir ++ name).length < sys.FL_PATH_MAX) :
    createFile_data sys w dir name data (sizeof data) =
      some (spec_write_template dir w (name, data)) := by
  have t := take_all_bytes data
  have hd := dir_fits _ _ _ hfit
  unfold createFile_data spec_write_template
  simp only [strcpy, strcat, strlen, if_pos hd, if_pos hfit, Option.bind_eq_bind,
    Option.some_bind, Option.pure_def, fl_make_path_for_file, fl_fopen, fwrite, fclose,
    sizeof]
  rw [if_pos (by decide)]
  simp only [t, Option.some.injEq]
  congr 1
  funext q
  by_cases hq : q = dir ++ name
  · simp [hq]
  · simp [hq]

/-- The function `createProjectFolder` is the scaffold of the fixed list under the
directory held by `projectDir`, when every name fits into its buffer. -/
theorem createProjectFolder_eq (sys : Fl_Filename) (icons : Flink_Icons) (ui : Flink_UI)
    (w : Flink_World) (root : String)
    (hroot : createProjectFolder_projectDir sys ui w = some root)
    (hfit : ∀ rel ∈ spec_scaffold_paths, (root ++ rel).length < sys.FL_PATH_MAX) :
    createProjectFolder sys icons ui w =
      some (spec_scaffold root (spec_scaffold_templates icons)
        (fl_chdir sys w ui.wSourceFolder)) := by
  have hg : c_index
      (fl_filename_absolute sys (fl_chdir sys w ui.wSourceFolder) sys.FL_PATH_MAX
        ui.wProjectFolder)
      (strlen (fl_filename_absolute sys (fl_chdir sys w ui.wSourceFolder) sys.FL_PATH_MAX
        ui.wProjectFolder)) ≠ '/' := by
    rw [c_index_strlen]
    decide
  have h1 := hfit "FL/abi-version.h" (by decide)
  have h2 := hfit "build.gradle" (by decide)
  have h3 := hfit "settings.gradle" (by decide)
  have h4 := hfit "config.h" (by decide)
  have h5 := hfit "fltk/build.gradle" (by decide)
  have h6 := hfit "fltk/src/main/AndroidManifest.xml" (by decide)
  have h7 := hfit "fltk/src/main/cpp/CMakeLists.txt" (by decide)
  have h8 := hfit "adjuster/build.gradle" (by decide)
  have h9 := hfit "adjuster/src/main/AndroidManifest.xml" (by decide)
  have h10 := hfit "adjuster/src/main/cpp/CMakeLists.txt" (by decide)
  have h11 := hfit "adjuster/src/main/res/mipmap-mdpi/ic_launcher.png" (by decide)
  have h12 := hfit "adjuster/src/main/res/mipmap-hdpi/ic_launcher.png" (by decide)
  have h13 := hfit "adjuster/src/main/res/mipmap-xhdpi/ic_launcher.png" (by decide)
  have h14 := hfit "adjuster/src/main/res/mipmap-xxhdpi/ic_launcher.png" (by decide)
  have h15 := hfit "adjuster/src/main/res/values/strings.xml" (by decide)
  unfold createProjectFolder_projectDir at hroot
  simp only [if_pos hg] at hroot
  unfold createProjectFolder spec_scaffold spec_scaffold_templates
  simp only [if_pos hg, hroot, Option.bind_eq_bind, Option.some_bind, List.foldl_cons,
    List.foldl_nil,
    createFile_eq sys _ root _ _ h1,
    createFile_eq sys _ root _ _ h2,
    createFile_eq sys _ root _ _ h3,
    createFile_eq sys _ root _ _ h4,
    createFile_eq sys _ root _ _ h5,
    createFile_eq sys _ root _ _ h6,
    createFile_eq sys _ root _ _ h7,
    createFile_eq sys _ root _ _ h8,
    createFile_eq sys _ root _ _ h9,
    createFile_eq sys _ root _ _ h10,
    createFile_data_eq sys _ root _ _ h11,
    createFile_data_eq sys _ root _ _ h12,
    createFile_data_eq sys _ root _ _ h13,
    createFile_data_eq sys _ root _ _ h14,
    createFile_eq sys _ root _ _ h15]

/-! ## Scaffolder: files after a list of writes -/

/-- Two names under one root are the same only if the relative paths are the same. -/
theorem root_append_cancel (root a b : String) (h : root ++ a = root ++ b) : a = b := by
  have hd := congrArg String.data h
  rw [String.data_append, String.data_append] at hd
  exact String.ext (List.append_cancel_left hd)

/-- A name that no pair of the list is written to keeps what it held. -/
theorem scaffold_files_other (root : String) (l : List (String × String)) (w : Flink_World)
    (q : String) (h : ∀ t ∈ l, q ≠ root ++ t.1) :
    (l.foldl (spec_write_template root) w).files q = w.files q := by
  induction l generalizing w with
  | nil => rfl
  | cons t ts ih =>
      rw [List.foldl_cons, ih _ (fun k hk => h k (List.mem_cons_of_mem t hk))]
      have ht := h t (List.mem_cons_self t ts)
      simp only [spec_write_template, if_neg ht]

/-- With pairwise distinct relative paths, the name of every pair of the list holds the
content of the pair. -/
theorem scaffold_files_mem (root : String) (l : List (String × String)) (w : Flink_World)
    (t : String × String) (hn : (l.map Prod.fst).Nodup) (ht : t ∈ l) :
    (l.foldl (spec_write_template root) w).files (root ++ t.1) = some t.2 := by
  induction l generalizing w with
  | nil => exact absurd ht (List.not_mem_nil t)
  | cons u us ih =>
      rw [List.map_cons, List.nodup_cons] at hn
      rw [List.foldl_cons]
      rcases List.mem_cons.mp ht with rfl | hin
      · rw [scaffold_files_other]
        · simp only [spec_write_template, if_pos]
        · intro k hk he
          have := root_append_cancel root t.1 k.1 he
          exact hn.1 (this ▸ List.mem_map_of_mem Prod.fst hk)
      · exact ih _ hn.2 hin

/-- The directories that exist after a list of writes. -/
theorem scaffold_dirs (root : String) (l : List (String × String)) (w : Flink_World)
    (q : String) :
    (l.foldl (spec_write_template root) w).dirs q =
      (w.dirs q || l.any (fun t => decide (q ∈ path_ancestors (root ++ t.1)))) := by
  induction l generalizing w with
  | nil => simp
  | cons t ts ih =>
      rw [List.foldl_cons, ih, List.any_cons]
      simp only [spec_write_template, Bool.or_assoc]

/-- The fifteen relative paths are the first components of the fixed list and they are
pairwise distinct. -/
theorem scaffold_paths_facts (icons : Flink_Icons) :
    (spec_scaffold_templates icons).map Prod.fst = spec_scaffold_paths ∧
    spec_scaffold_paths.length = 15 ∧ spec_scaffold_paths.Nodup :=
  ⟨rfl, rfl, by decide⟩

/-- The files after the scaffold: the name of every pair of the fixed list under the
root holds the content of the pair, and every other name holds what it held. -/
theorem spec_scaffold_files (root : String) (icons : Flink_Icons) (w : Flink_World) :
    (∀ t ∈ spec_scaffold_templates icons,
      (spec_scaffold root (spec_scaffold_templates icons) w).files (root ++ t.1) =
        some t.2) ∧
    (∀ q, (∀ t ∈ spec_scaffold_templates icons, q ≠ root ++ t.1) →
      (spec_scaffold root (spec_scaffold_templates icons) w).files q = w.files q) := by
  unfold spec_scaffold
  constructor
  · intro t ht
    have hn : ((spec_scaffold_templates icons).map Prod.fst).Nodup := by
      rw [(scaffold_paths_facts icons).1]
      exact (scaffold_paths_facts icons).2.2
    exact scaffold_files_mem _ _ _ t hn ht
  · intro q hq
    rw [scaffold_files_other _ _ _ q hq]
    rfl

/-- The directories after the scaffold: the ones before, the root and the parent
directories of the files, with every directory on the way. -/
theorem spec_scaffold_dirs (root : String) (icons : Flink_Icons) (w : Flink_World)
    (q : String) :
    (spec_scaffold root (spec_scaffold_templates icons) w).dirs q =
      (w.dirs q ||
        ((decide (q = root) || decide (q ∈ path_ancestors root)) ||
         (spec_scaffold_templates icons).any (fun t =>
           decide (q ∈ path_ancestors (root ++ t.1))))) := by
  unfold spec_scaffold
  rw [scaffold_dirs]
  simp only [fl_make_path, Bool.or_assoc]

/-! ## Scaffolder: completeness -/

/-- Claim C11: when the destination root D held by `projectDir` and the 15 names D + rel
fit into the path buffers, `createProjectFolder` on a file system without files returns
and leaves a file at exactly the names D + rel for the 15 relative paths rel of the
fixed list; each of these files holds exactly the content passed for it; the 15
relative paths are pairwise distinct and so are the 15 names. -/
theorem scaffold_completeness (sys : Fl_Filename) (icons : Flink_Icons) (ui : Flink_UI)
    (w : Flink_World) (root : String) (hempty : ∀ q, w.files q = none)
    (hroot : createProjectFolder_projectDir sys ui w = some root)
    (hfit : ∀ rel ∈ spec_scaffold_paths, (root ++ rel).length < sys.FL_PATH_MAX) :
    ∃ v : Flink_World, createProjectFolder sys icons ui w = some v ∧
      (∀ q, (v.files q).isSome = true ↔
        q ∈ spec_scaffold_paths.map (fun rel => root ++ rel)) ∧
      (∀ t ∈ spec_scaffold_templates icons, v.files (root ++ t.1) = some t.2) ∧
      (spec_scaffold_templates icons).map Prod.fst = spec_scaffold_paths ∧
      spec_scaffold_paths.length = 15 ∧
      spec_scaffold_paths.Nodup ∧
      (spec_scaffold_paths.map (fun rel => root ++ rel)).Nodup := by
  obtain ⟨hmem, hother⟩ :=
    spec_scaffold_files root icons (fl_chdir sys w ui.wSourceFolder)
  obtain ⟨hmap, hlen, hnd⟩ := scaffold_paths_facts icons
  refine ⟨_, createProjectFolder_eq sys icons ui w root hroot hfit, ?_, hmem, hmap, hlen,
    hnd, ?_⟩
  · intro q
    constructor
    · intro hs
      by_contra hq
      have hno : ∀ t ∈ spec_scaffold_templates icons, q ≠ root ++ t.1 := by
        intro t ht he
        apply hq
        rw [← hmap]
        exact List.mem_map.mpr ⟨t.1, List.mem_map_of_mem Prod.fst ht, he.symm⟩
      rw [hother q hno] at hs
      have hn : (fl_chdir sys w ui.wSourceFolder).files q = none := hempty q
      rw [hn] at hs
      exact Bool.false_ne_true hs
    · intro hq
      obtain ⟨rel, hrel, rfl⟩ := List.mem_map.mp hq
      rw [← hmap] at hrel
      obtain ⟨t, ht, rfl⟩ := List.mem_map.mp hrel
      rw [hmem t ht]
      rfl
  · exact hnd.map (fun a b h => root_append_cancel _ a b h)

/-- The root of the sample process and the fit of its 15 names into 2048 bytes. -/
theorem sample_root_fits :
    createProjectFolder_projectDir sample_filename sample_ui sample_world =
      some "/src/fltk/build/AndroidStudio/" ∧
    ∀ rel ∈ spec_scaffold_paths,
      ("/src/fltk/build/AndroidStudio/" ++ rel).length < sample_filename.FL_PATH_MAX := by
  constructor
  · decide
  · decide

/-- Claim C11, applied to the sample process: the destination root is
/src/fltk/build/AndroidStudio/, the run returns, and the files build.gradle and the
xhdpi icon under the root hold the contents passed for them. -/
theorem scaffold_completeness_witness :
    ∃ v : Flink_World,
      createProjectFolder sample_filename sample_icons sample_ui sample_world = some v ∧
      v.files ("/src/fltk/build/AndroidStudio/" ++ "build.gradle") =
        some text_build_gradle ∧
      v.files ("/src/fltk/build/AndroidStudio/" ++
        "adjuster/src/main/res/mipmap-xhdpi/ic_launcher.png") = some "xh" := by
  obtain ⟨v, hv, -, hmem, -⟩ :=
    scaffold_completeness sample_filename sample_icons sample_ui sample_world
      "/src/fltk/build/AndroidStudio/" (fun _ => rfl) sample_root_fits.1 sample_root_fits.2
  exact ⟨v, hv,
    hmem ("build.gradle", text_build_gradle)
      (List.mem_cons_of_mem _ (List.mem_cons_self _ _)),
    hmem ("adjuster/src/main/res/mipmap-xhdpi/ic_launcher.png", "xh")
      (by simp [spec_scaffold_templates, sample_icons])⟩

/-! ## Scaffolder: idempotence -/

/-- When `projectDir` has no value, `createProjectFolder` has no result. -/
theorem createProjectFolder_overflow (sys : Fl_Filename) (icons : Flink_Icons)
    (ui : Flink_UI) (w : Flink_World)
    (hover : createProjectFolder_projectDir sys ui w = none) :
    createProjectFolder sys icons ui w = none := by
  have hg : c_index
      (fl_filename_absolute sys (fl_chdir sys w ui.wSourceFolder) sys.FL_PATH_MAX
        ui.wProjectFolder)
      (strlen (fl_filename_absolute sys (fl_chdir sys w ui.wSourceFolder) sys.FL_PATH_MAX
        ui.wProjectFolder)) ≠ '/' := by
    rw [c_index_strlen]
    decide
  unfold createProjectFolder_projectDir at hover
  simp only [if_pos hg] at hover
  unfold createProjectFolder
  simp only [if_pos hg, hover, Option.bind_eq_bind, Option.none_bind]

/-- Claim C12: when the names fit into the path buffers, so that all writes succeed, and
the second run resolves to the destination root of the first, running
`createProjectFolder` a second time leaves the file system as the first run left it: the
same files with the same bytes, nothing appended, and the same directories. -/
theorem scaffold_idempotent (sys : Fl_Filename) (icons : Flink_Icons) (ui : Flink_UI)
    (w : Flink_World) (root : String)
    (hroot : createProjectFolder_projectDir sys ui w = some root)
    (hfit : ∀ rel ∈ spec_scaffold_paths, (root ++ rel).length < sys.FL_PATH_MAX)
    (hsame : ∀ v, createProjectFolder sys icons ui w = some v →
      createProjectFolder_projectDir sys ui v = some root) :
    ∃ v v2 : Flink_World,
      createProjectFolder sys icons ui w = some v ∧
      createProjectFolder sys icons ui v = some v2 ∧
      v2.files = v.files ∧ v2.dirs = v.dirs := by
  have e1 := createProjectFolder_eq sys icons ui w root hroot hfit
  have e2 := createProjectFolder_eq sys icons ui _ root (hsame _ e1) hfit
  refine ⟨_, _, e1, e2, ?_, ?_⟩
  · funext q
    obtain ⟨hmem1, -⟩ := spec_scaffold_files root icons (fl_chdir sys w ui.wSourceFolder)
    obtain ⟨hmem2, hother2⟩ := spec_scaffold_files root icons
      (fl_chdir sys (spec_scaffold root (spec_scaffold_templates icons)
        (fl_chdir sys w ui.wSourceFolder)) ui.wSourceFolder)
    by_cases hq : ∃ t ∈ spec_scaffold_templates icons, q = root ++ t.1
    · obtain ⟨t, ht, rfl⟩ := hq
      rw [hmem2 t ht, hmem1 t ht]
    · rw [hother2 q (fun t ht he => hq ⟨t, ht, he⟩)]
      rfl
  · funext q
    rw [spec_scaffold_dirs, spec_scaffold_dirs]
    simp only [fl_chdir]
    rw [spec_scaffold_dirs]
    generalize w.dirs q = a
    generalize (decide (q = root) || decide (q ∈ path_ancestors root)) = b
    generalize (spec_scaffold_templates icons).any (fun t =>
      decide (q ∈ path_ancestors (root ++ t.1))) = c
    cases a <;> cases b <;> cases c <;> rfl

/-- Claim C12, applied to the sample process, whose two runs resolve to the same root. -/
theorem scaffold_idempotent_witness :
    ∃ v v2 : Flink_World,
      createProjectFolder sample_filename sample_icons sample_ui sample_world = some v ∧
      createProjectFolder sample_filename sample_icons sample_ui v = some v2 ∧
      v2.files = v.files ∧ v2.dirs = v.dirs :=
  scaffold_idempotent sample_filename sample_icons sample_ui sample_world
    "/src/fltk/build/AndroidStudio/" sample_root_fits.1 sample_root_fits.2
    (fun v _ => (show createProjectFolder_projectDir sample_filename sample_ui v =
      createProjectFolder_projectDir sample_filename sample_ui sample_world from rfl).trans
      sample_root_fits.1)

/-! ## Scaffolder: contents -/

/-- Claim C13: for two runs of `createProjectFolder` that resolve to the same destination
root, with names that fit into the path buffers, whatever the path functions, the
widget values (source root, delete flag) and the earlier file systems of the two runs
are, both runs return and every file of the fixed list holds the same bytes after both,
namely the content passed for it; the delete flag is never read. -/
theorem scaffold_contents_unconditional (sys1 sys2 : Fl_Filename) (icons : Flink_Icons)
    (ui1 ui2 : Flink_UI) (w1 w2 : Flink_World) (root : String)
    (hroot1 : createProjectFolder_projectDir sys1 ui1 w1 = some root)
    (hroot2 : createProjectFolder_projectDir sys2 ui2 w2 = some root)
    (hfit1 : ∀ rel ∈ spec_scaffold_paths, (root ++ rel).length < sys1.FL_PATH_MAX)
    (hfit2 : ∀ rel ∈ spec_scaffold_paths, (root ++ rel).length < sys2.FL_PATH_MAX) :
    (∃ v1 v2 : Flink_World,
      createProjectFolder sys1 icons ui1 w1 = some v1 ∧
      createProjectFolder sys2 icons ui2 w2 = some v2 ∧
      ∀ t ∈ spec_scaffold_templates icons,
        v1.files (root ++ t.1) = v2.files (root ++ t.1) ∧
        v1.files (root ++ t.1) = some t.2) ∧
    (∀ flag : Int,
      createProjectFolder sys1 icons { ui1 with wDeleteExistingProject := flag } w1 =
        createProjectFolder sys1 icons ui1 w1) := by
  have e1 := createProjectFolder_eq sys1 icons ui1 w1 root hroot1 hfit1
  have e2 := createProjectFolder_eq sys2 icons ui2 w2 root hroot2 hfit2
  obtain ⟨hmem1, -⟩ := spec_scaffold_files root icons (fl_chdir sys1 w1 ui1.wSourceFolder)
  obtain ⟨hmem2, -⟩ := spec_scaffold_files root icons (fl_chdir sys2 w2 ui2.wSourceFolder)
  refine ⟨⟨_, _, e1, e2, fun t ht => ⟨?_, hmem1 t ht⟩⟩, fun flag => rfl⟩
  rw [hmem1 t ht, hmem2 t ht]

/-- Claim C13, applied to two sample runs with different source roots, flags and earlier
contents that resolve to the root /out/. -/
theorem scaffold_contents_unconditional_witness :
    ∃ v1 v2 : Flink_World,
      createProjectFolder sample_filename sample_icons
        { wSourceFolder := "/src/fltk", wProjectFolder := "/out",
          wDeleteExistingProject := 1 } sample_world = some v1 ∧
      createProjectFolder sample_filename sample_icons
        { wSourceFolder := "/other", wProjectFolder := "/out",
          wDeleteExistingProject := 0 }
        { sample_world with files := fun _ => some "old" } = some v2 ∧
      v1.files ("/out/" ++ "config.h") = v2.files ("/out/" ++ "config.h") ∧
      v1.files ("/out/" ++ "config.h") = some text_config_h := by
  obtain ⟨⟨v1, v2, h1, h2, hf⟩, -⟩ :=
    scaffold_contents_unconditional sample_filename sample_filename sample_icons
      { wSourceFolder := "/src/fltk", wProjectFolder := "/out", wDeleteExistingProject := 1 }
      { wSourceFolder := "/other", wProjectFolder := "/out", wDeleteExistingProject := 0 }
      sample_world { sample_world with files := fun _ => some "old" } "/out/"
      (by decide) (by decide) (by decide) (by decide)
  exact ⟨v1, v2, h1, h2,
    hf ("config.h", text_config_h)
      (List.mem_cons_of_mem _ (List.mem_cons_of_mem _ (List.mem_cons_of_mem _
        (List.mem_cons_self _ _))))⟩

/-! ## Scaffolder: the slash after the destination root -/

/-- Claim C15: for every absolute project path p that `fl_filename_absolute` produces and
whose 15 names p + "/" + rel fit into the path buffers, the directory in front of all
file names is p followed by exactly one slash, because the guard reads the terminating
NUL; this also holds when p ends in a slash, as for /tmp/proj/; the run returns, every
file of the fixed list is written at p + "/" + its relative path, and no other name
changes. -/
theorem projectDir_slash_appended (sys : Fl_Filename) (icons : Flink_Icons) (ui : Flink_UI)
    (w : Flink_World)
    (hfit : ∀ rel ∈ spec_scaffold_paths,
      (fl_filename_absolute sys (fl_chdir sys w ui.wSourceFolder) sys.FL_PATH_MAX
        ui.wProjectFolder ++ "/" ++ rel).length < sys.FL_PATH_MAX) :
    c_index
      (fl_filename_absolute sys (fl_chdir sys w ui.wSourceFolder) sys.FL_PATH_MAX
        ui.wProjectFolder)
      (strlen (fl_filename_absolute sys (fl_chdir sys w ui.wSourceFolder) sys.FL_PATH_MAX
        ui.wProjectFolder)) = Char.ofNat 0 ∧
    createProjectFolder_projectDir sys ui w =
      some (fl_filename_absolute sys (fl_chdir sys w ui.wSourceFolder) sys.FL_PATH_MAX
        ui.wProjectFolder ++ "/") ∧
    (∃ v : Flink_World, createProjectFolder sys icons ui w = some v ∧
      (∀ t ∈ spec_scaffold_templates icons,
        v.files (fl_filename_absolute sys (fl_chdir sys w ui.wSourceFolder) sys.FL_PATH_MAX
          ui.wProjectFolder ++ "/" ++ t.1) = some t.2) ∧
      (∀ q, v.files q ≠ w.files q →
        ∃ t ∈ spec_scaffold_templates icons,
          q = fl_filename_absolute sys (fl_chdir sys w ui.wSourceFolder) sys.FL_PATH_MAX
            ui.wProjectFolder ++ "/" ++ t.1)) ∧
    createProjectFolder_projectDir sample_filename
      { wSourceFolder := "/src/fltk", wProjectFolder := "/tmp/proj/",
        wDeleteExistingProject := 1 } sample_world = some "/tmp/proj//" := by
  have hslash : (fl_filename_absolute sys (fl_chdir sys w ui.wSourceFolder) sys.FL_PATH_MAX
      ui.wProjectFolder ++ "/").length < sys.FL_PATH_MAX :=
    dir_fits _ _ "config.h" (hfit "config.h" (by decide))
  have hroot := projectDir_eq sys ui w hslash
  obtain ⟨hmem, hother⟩ := spec_scaffold_files
    (fl_filename_absolute sys (fl_chdir sys w ui.wSourceFolder) sys.FL_PATH_MAX
      ui.wProjectFolder ++ "/") icons (fl_chdir sys w ui.wSourceFolder)
  refine ⟨c_index_strlen _, hroot,
    ⟨_, createProjectFolder_eq sys icons ui w _ hroot hfit, hmem, ?_⟩, by decide⟩
  intro q hq
  by_contra hno
  exact hq (hother q (fun t ht he => hno ⟨t, ht, he⟩))

/-- Claim C15, applied to the sample process: the root resolves to
/src/fltk/build/AndroidStudio, the run returns, and settings.gradle is written one slash
below the root. -/
theorem projectDir_slash_appended_witness :
    fl_filename_absolute sample_filename
        (fl_chdir sample_filename sample_world sample_ui.wSourceFolder)
        sample_filename.FL_PATH_MAX sample_ui.wProjectFolder =
      "/src/fltk/build/AndroidStudio" ∧
    ∃ v : Flink_World,
      createProjectFolder sample_filename sample_icons sample_ui sample_world = some v ∧
      v.files (fl_filename_absolute sample_filename
        (fl_chdir sample_filename sample_world sample_ui.wSourceFolder)
        sample_filename.FL_PATH_MAX sample_ui.wProjectFolder ++ "/" ++ "settings.gradle") =
        some text_settings_gradle := by
  refine ⟨by decide, ?_⟩
  obtain ⟨-, -, ⟨v, hv, hmem, -⟩, -⟩ :=
    projectDir_slash_appended sample_filename sample_icons sample_ui sample_world
      (by decide)
  exact ⟨v, hv, hmem ("settings.gradle", text_settings_gradle)
    (List.mem_cons_of_mem _ (List.mem_cons_of_mem _ (List.mem_cons_self _ _)))⟩
